import Mathlib

/-!
Verification of the heuristic NLU / ranking pipeline of a real-estate
assistant backend (services `languageService`, `webSearchService`,
`mistralService`).  The JavaScript services are shallowly embedded:
strings are Lean `String`s (lists of characters), each JavaScript regular
expression used only as a boolean test or as a replacement pattern is
translated either to a bespoke scanner or to a small token-list matcher,
and each service function becomes a pure Lean function over these.

Conventions for the embedding of JavaScript primitives:
* `String.prototype.includes`  ~ `containsL` / `jsIncludes`;
* `String.prototype.toLowerCase` ~ charwise `Char.toLower`
  (all literals compared in the sources are ASCII or characters that are
  fixed points of lowercasing, e.g. Devanagari);
* `String.prototype.trim` ~ `jsTrimL` dropping the JavaScript whitespace
  class from both ends (the whitespace characters actually occurring in
  the verified statements are ASCII).
-/

set_option maxRecDepth 8000

/-! ## Generic character/string helpers -/

/-- JavaScript whitespace class `\s` (the members relevant here). -/
def isJsWs (c : Char) : Bool :=
  c.toNat == 0x9 || c.toNat == 0xa || c.toNat == 0xb || c.toNat == 0xc ||
  c.toNat == 0xd || c.toNat == 0x20 || c.toNat == 0xa0 ||
  c.toNat == 0x2028 || c.toNat == 0x2029 || c.toNat == 0xfeff ||
  c.toNat == 0x3000

/-- JavaScript line terminators (the characters regex `.` does not match). -/
def isJsLineTerm (c : Char) : Bool :=
  c.toNat == 0xa || c.toNat == 0xd || c.toNat == 0x2028 || c.toNat == 0x2029

/-- ASCII decimal digit, JavaScript `\d`. -/
def isJsDigit (c : Char) : Bool := '0' ≤ c && c ≤ '9'

/-- JavaScript `\w` word character class. -/
def isJsWordChar (c : Char) : Bool :=
  ('a' ≤ c && c ≤ 'z') || ('A' ≤ c && c ≤ 'Z') || isJsDigit c || c == '_'

/-- `cs` starts with the literal `pre`. -/
def startsWithL : List Char → List Char → Bool
  | [], _ => true
  | _ :: _, [] => false
  | p :: ps, c :: cs => p == c && startsWithL ps cs

/-- `cs` starts with the literal `pre`, comparing case-insensitively. -/
def startsWithCIL : List Char → List Char → Bool
  | [], _ => true
  | _ :: _, [] => false
  | p :: ps, c :: cs => p.toLower == c.toLower && startsWithCIL ps cs

/-- Substring containment, JavaScript `String.prototype.includes`. -/
def containsL : List Char → List Char → Bool
  | cs, pat =>
    startsWithL pat cs ||
      match cs with
      | [] => false
      | _ :: t => containsL t pat

/-- `String.prototype.includes` on Lean strings. -/
def jsIncludes (s sub : String) : Bool := containsL s.data sub.data

/-- Charwise lowercasing, JavaScript `String.prototype.toLowerCase`. -/
def lowerL (cs : List Char) : List Char := cs.map Char.toLower

/-- `String.prototype.toLowerCase` on Lean strings. -/
def jsToLower (s : String) : String := ⟨lowerL s.data⟩

/-- Does any needle of `pats` occur in `cs`? -/
def containsAnyL (cs : List Char) (pats : List (List Char)) : Bool :=
  pats.any (fun p => containsL cs p)

/-- `String.prototype.trim` on character lists. -/
def jsTrimL (cs : List Char) : List Char :=
  ((cs.dropWhile isJsWs).reverse.dropWhile isJsWs).reverse

/-! ## Language service (`languageService.js`) -/

/-- Character of the Devanagari block (Hindi/Marathi), `ऀ-ॿ`. -/
def isDeva (c : Char) : Bool :=
  decide (0x900 ≤ c.toNat) && decide (c.toNat ≤ 0x97F)

/-- Character of the Gujarati block `઀-૿`. -/
def isGujaratiBlock (c : Char) : Bool :=
  decide (0xA80 ≤ c.toNat) && decide (c.toNat ≤ 0xAFF)

/-- Character of the Bengali block `ঀ-৿`. -/
def isBengaliBlock (c : Char) : Bool :=
  decide (0x980 ≤ c.toNat) && decide (c.toNat ≤ 0x9FF)

/-- Character of the Tamil block `஀-௿`. -/
def isTamilBlock (c : Char) : Bool :=
  decide (0xB80 ≤ c.toNat) && decide (c.toNat ≤ 0xBFF)

/-- Character of the Telugu block `ఀ-౿`. -/
def isTeluguBlock (c : Char) : Bool :=
  decide (0xC00 ≤ c.toNat) && decide (c.toNat ≤ 0xC7F)

/-- Character of the Kannada block `ಀ-೿`. -/
def isKannadaBlock (c : Char) : Bool :=
  decide (0xC80 ≤ c.toNat) && decide (c.toNat ≤ 0xCFF)

/-- Character of the Malayalam block `ഀ-ൿ`. -/
def isMalayalamBlock (c : Char) : Bool :=
  decide (0xD00 ≤ c.toNat) && decide (c.toNat ≤ 0xD7F)

/-- Character of the Gurmukhi block `਀-੿` (Punjabi). -/
def isPunjabiBlock (c : Char) : Bool :=
  decide (0xA00 ≤ c.toNat) && decide (c.toNat ≤ 0xA7F)

/-- Character of the Arabic block `؀-ۿ` (Urdu). -/
def isUrduBlock (c : Char) : Bool :=
  decide (0x600 ≤ c.toNat) && decide (c.toNat ≤ 0x6FF)

/-- Test of the regex `[block]{3,}`: three contiguous characters of the
block occur somewhere in the text. -/
def hasRun3 (p : Char → Bool) : List Char → Bool
  | c1 :: c2 :: c3 :: rest =>
    (p c1 && p c2 && p c3) || hasRun3 p (c2 :: c3 :: rest)
  | _ => false

/-- Keyword alternation of the second Hindi pattern of
`languagePatterns['hi']`. -/
def hindiKeywords : List (List Char) :=
  ["कैसे", "क्या", "कौन", "कहाँ", "क्यों", "मैं", "हम", "तुम", "आप", "वह", "यह",
   "मेरा", "हमारा", "मुझे", "हमें"].map String.data

/-- Keyword alternation inside the Marathi pattern of
`languagePatterns['mr']`. -/
def marathiKeywords : List (List Char) :=
  ["आहे", "नाही", "काय", "कसे", "कोण", "कुठे", "का", "मी", "आम्ही", "तू", "तुम्ही",
   "तो", "ती", "ते", "माझा", "आमचा", "मला", "आम्हाला"].map String.data

/-- Tail of the Marathi regex after the Devanagari run: `.*?(kw1|…)`.
A keyword must occur, reachable over non-line-terminator characters. -/
def mrTailSearch (kws : List (List Char)) : List Char → Bool
  | [] => false
  | c :: rest =>
    kws.any (fun k => startsWithL k (c :: rest)) ||
      (!isJsLineTerm c && mrTailSearch kws rest)

/-- Test of the Marathi pattern `[ऀ-ॿ]{3,}.*?(आहे|…)`:
a run of three Devanagari characters followed (over non-line-terminator
characters; further run characters are themselves such) by a keyword. -/
def mrMatch (kws : List (List Char)) : List Char → Bool
  | c1 :: c2 :: c3 :: rest =>
    (isDeva c1 && isDeva c2 && isDeva c3 && mrTailSearch kws rest) ||
      mrMatch kws (c2 :: c3 :: rest)
  | _ => false

/-- Both Hindi patterns of `languagePatterns['hi']`, as one test. -/
def hiMatches (cs : List Char) : Bool :=
  hasRun3 isDeva cs || containsAnyL cs hindiKeywords

/-- The Marathi pattern of `languagePatterns['mr']`. -/
def mrMatches (cs : List Char) : Bool := mrMatch marathiKeywords cs

/-- `detectLanguage` of `languageService.js`: default `'en'` on empty or
whitespace-only input, otherwise the first language (in the fixed object
order hi, mr, gu, bn, ta, te, kn, ml, pa, ur) one of whose patterns
matches, defaulting to `'en'`. -/
def detectLanguage (text : String) : String :=
  if (jsTrimL text.data).length = 0 then "en"
  else if hiMatches text.data then "hi"
  else if mrMatches text.data then "mr"
  else if hasRun3 isGujaratiBlock text.data then "gu"
  else if hasRun3 isBengaliBlock text.data then "bn"
  else if hasRun3 isTamilBlock text.data then "ta"
  else if hasRun3 isTeluguBlock text.data then "te"
  else if hasRun3 isKannadaBlock text.data then "kn"
  else if hasRun3 isMalayalamBlock text.data then "ml"
  else if hasRun3 isPunjabiBlock text.data then "pa"
  else if hasRun3 isUrduBlock text.data then "ur"
  else "en"

/-! ### Language-service lemmas -/

theorem hasRun3_of_mrMatch {kws : List (List Char)} :
    ∀ {cs : List Char}, mrMatch kws cs = true → hasRun3 isDeva cs = true := by
  intro cs h
  induction cs with
  | nil => simp [mrMatch] at h
  | cons c t ih =>
    match t, ih with
    | [], _ => simp [mrMatch] at h
    | [c2], _ => simp [mrMatch] at h
    | c2 :: c3 :: rest, ih =>
      rw [mrMatch] at h
      rw [hasRun3]
      rcases Bool.or_eq_true_iff.mp h with h1 | h2
      · simp only [Bool.and_eq_true] at h1
        obtain ⟨⟨⟨ha, hb⟩, hc⟩, _⟩ := h1
        simp [ha, hb, hc]
      · exact Bool.or_eq_true_iff.mpr (Or.inr (ih h2))

/-- If some member of the list is not dropped, `dropWhile` keeps a
non-dropped member. -/
theorem exists_mem_dropWhile {p : Char → Bool} :
    ∀ {l : List Char}, (∃ c ∈ l, p c = false) →
      ∃ c ∈ l.dropWhile p, p c = false := by
  intro l h
  induction l with
  | nil => simp at h
  | cons d t ih =>
    rcases h with ⟨c, hc, hpc⟩
    by_cases hd : p d
    · rw [List.dropWhile_cons_of_pos hd]
      apply ih
      rcases List.mem_cons.mp hc with rfl | ht
      · exact absurd hd (by simp [hpc])
      · exact ⟨c, ht, hpc⟩
    · rw [List.dropWhile_cons_of_neg hd]
      exact ⟨c, hc, hpc⟩

theorem jsTrimL_ne_nil {cs : List Char} (h : ∃ c ∈ cs, isJsWs c = false) :
    (jsTrimL cs).length ≠ 0 := by
  unfold jsTrimL
  have h1 := exists_mem_dropWhile h
  have h2 : ∃ c ∈ (cs.dropWhile isJsWs).reverse, isJsWs c = false := by
    rcases h1 with ⟨c, hc, hp⟩; exact ⟨c, List.mem_reverse.mpr hc, hp⟩
  have h3 := exists_mem_dropWhile h2
  rcases h3 with ⟨c, hc, _⟩
  simp only [List.length_reverse, ne_eq, List.length_eq_zero]
  intro hnil
  rw [hnil] at hc
  simp at hc

theorem hasRun3_exists_mem {p : Char → Bool} :
    ∀ {cs : List Char}, hasRun3 p cs = true → ∃ c ∈ cs, p c = true := by
  intro cs h
  induction cs with
  | nil => simp [hasRun3] at h
  | cons c t ih =>
    match t, ih with
    | [], _ => simp [hasRun3] at h
    | [c2], _ => simp [hasRun3] at h
    | c2 :: c3 :: rest, ih =>
      rw [hasRun3] at h
      rcases Bool.or_eq_true_iff.mp h with h1 | h2
      · simp only [Bool.and_eq_true] at h1
        obtain ⟨⟨ha, _⟩, _⟩ := h1
        exact ⟨c, by simp, ha⟩
      · rcases ih h2 with ⟨d, hd, hpd⟩
        exact ⟨d, List.mem_cons_of_mem _ hd, hpd⟩

/-- Characters of the Indic / Arabic blocks used by the classifier are not
JavaScript whitespace. -/
theorem block_not_ws {c : Char} (hlo : 0x300 ≤ c.toNat)
    (hhi : c.toNat ≤ 0xFFF) : isJsWs c = false := by
  unfold isJsWs
  simp only [Bool.or_eq_false_iff, beq_eq_false_iff_ne, ne_eq]
  omega

theorem blockPred_not_ws {lo hi : Nat} (hlo : 0x300 ≤ lo) (hhi : hi ≤ 0xFFF) :
    ∀ c : Char, (decide (lo ≤ c.toNat) && decide (c.toNat ≤ hi)) = true →
      isJsWs c = false := by
  intro c hc
  simp only [Bool.and_eq_true, decide_eq_true_eq] at hc
  exact block_not_ws (by omega) (by omega)

theorem trim_ne_of_run3 {p : Char → Bool} {cs : List Char}
    (h : hasRun3 p cs = true)
    (hp : ∀ c, p c = true → isJsWs c = false) : (jsTrimL cs).length ≠ 0 := by
  rcases hasRun3_exists_mem h with ⟨c, hc, hpc⟩
  exact jsTrimL_ne_nil ⟨c, hc, hp c hpc⟩

/-- Claim C9: the language classifier never returns the Marathi tag `'mr'`:
the Hindi entry is iterated first and its bare Devanagari-range pattern
matches every string the Marathi pattern can match, so the Marathi branch
is unreachable. -/
theorem c9_detectLanguage_never_mr (text : String) : detectLanguage text ≠ "mr" := by
  unfold detectLanguage
  by_cases h0 : (jsTrimL text.data).length = 0
  · simp [h0]
  · by_cases h1 : hiMatches text.data
    · simp [h0, h1]
    · have hmr : mrMatches text.data = false := by
        by_contra hh
        rw [Bool.not_eq_false] at hh
        have hrun := hasRun3_of_mrMatch hh
        rw [show hiMatches text.data = (hasRun3 isDeva text.data || containsAnyL text.data hindiKeywords) from rfl] at h1
        simp [hrun] at h1
      simp only [h0, if_false, h1, Bool.false_eq_true, hmr]
      split_ifs <;> simp

/-- Claim C6 (amended): for every text containing at least 3 contiguous
code points of a script block and matching no pattern of a language listed
earlier in the classifier's fixed priority order
(hi, mr, gu, bn, ta, te, kn, ml, pa, ur), `detectLanguage` returns that
script's tag, and empty or whitespace-only input yields the default `'en'`.
(The original claim, without the earlier-priority condition, is refuted by
`c6_counterexample`.) -/
theorem c6_detectLanguage_scripts (text : String) :
    ((jsTrimL text.data).length = 0 → detectLanguage text = "en")
    ∧ (hasRun3 isDeva text.data = true → detectLanguage text = "hi")
    ∧ (hasRun3 isGujaratiBlock text.data = true → hiMatches text.data = false →
        mrMatches text.data = false → detectLanguage text = "gu")
    ∧ (hasRun3 isBengaliBlock text.data = true → hiMatches text.data = false →
        mrMatches text.data = false → hasRun3 isGujaratiBlock text.data = false →
        detectLanguage text = "bn")
    ∧ (hasRun3 isTamilBlock text.data = true → hiMatches text.data = false →
        mrMatches text.data = false → hasRun3 isGujaratiBlock text.data = false →
        hasRun3 isBengaliBlock text.data = false → detectLanguage text = "ta")
    ∧ (hasRun3 isTeluguBlock text.data = true → hiMatches text.data = false →
        mrMatches text.data = false → hasRun3 isGujaratiBlock text.data = false →
        hasRun3 isBengaliBlock text.data = false →
        hasRun3 isTamilBlock text.data = false → detectLanguage text = "te")
    ∧ (hasRun3 isKannadaBlock text.data = true → hiMatches text.data = false →
        mrMatches text.data = false → hasRun3 isGujaratiBlock text.data = false →
        hasRun3 isBengaliBlock text.data = false →
        hasRun3 isTamilBlock text.data = false →
        hasRun3 isTeluguBlock text.data = false → detectLanguage text = "kn")
    ∧ (hasRun3 isMalayalamBlock text.data = true → hiMatches text.data = false →
        mrMatches text.data = false → hasRun3 isGujaratiBlock text.data = false →
        hasRun3 isBengaliBlock text.data = false →
        hasRun3 isTamilBlock text.data = false →
        hasRun3 isTeluguBlock text.data = false →
        hasRun3 isKannadaBlock text.data = false → detectLanguage text = "ml")
    ∧ (hasRun3 isPunjabiBlock text.data = true → hiMatches text.data = false →
        mrMatches text.data = false → hasRun3 isGujaratiBlock text.data = false →
        hasRun3 isBengaliBlock text.data = false →
        hasRun3 isTamilBlock text.data = false →
        hasRun3 isTeluguBlock text.data = false →
        hasRun3 isKannadaBlock text.data = false →
        hasRun3 isMalayalamBlock text.data = false → detectLanguage text = "pa")
    ∧ (hasRun3 isUrduBlock text.data = true → hiMatches text.data = false →
        mrMatches text.data = false → hasRun3 isGujaratiBlock text.data = false →
        hasRun3 isBengaliBlock text.data = false →
        hasRun3 isTamilBlock text.data = false →
        hasRun3 isTeluguBlock text.data = false →
        hasRun3 isKannadaBlock text.data = false →
        hasRun3 isMalayalamBlock text.data = false →
        hasRun3 isPunjabiBlock text.data = false → detectLanguage text = "ur") := by
  refine ⟨?_, ?_, ?_, ?_, ?_, ?_, ?_, ?_, ?_, ?_⟩
  · intro h0; simp [detectLanguage, h0]
  · intro hrun
    have ht := trim_ne_of_run3 hrun (blockPred_not_ws (by norm_num) (by norm_num))
    have hhi : hiMatches text.data = true := by
      rw [show hiMatches text.data = (hasRun3 isDeva text.data || containsAnyL text.data hindiKeywords) from rfl]
      simp [hrun]
    simp [detectLanguage, ht, hhi]
  all_goals
    intro hrun hhi hmr
    try intro hgu
    try intro hbn
    try intro hta
    try intro hte
    try intro hkn
    try intro hml
    try intro hpa
    have ht := trim_ne_of_run3 hrun (blockPred_not_ws (by norm_num) (by norm_num))
    simp only [detectLanguage, ht, if_false]
    simp_all

/-- Claim C6 witness: a pure-Tamil text exercises the amended claim. -/
theorem c6_detectLanguage_scripts_witness :
    hasRun3 isTamilBlock ("அஆஇ").data = true
    ∧ detectLanguage "அஆஇ" = "ta" := by
  refine ⟨by decide, ?_⟩
  exact (c6_detectLanguage_scripts "அஆஇ").2.2.2.2.1 (by decide) (by decide)
    (by decide) (by decide) (by decide)

/-- Claim C6 counterexample: a text holding 3 contiguous Tamil code points
(and no keyword of any language sharing the Tamil block, since none does)
is classified `'hi'`, not `'ta'`, because it also holds a Devanagari run
and the Hindi entry is tested first. -/
theorem c6_counterexample :
    hasRun3 isTamilBlock ("कखगஅஆஇ").data = true
    ∧ detectLanguage "कखगஅஆஇ" = "hi"
    ∧ detectLanguage "कखगஅஆஇ" ≠ "ta" := by
  refine ⟨by decide, by decide, ?_⟩
  intro h
  have h2 : detectLanguage "कखगஅஆஇ" = "hi" := by decide
  rw [h] at h2
  exact absurd h2 (by decide)

/-! ## Web search service (`webSearchService.js`): intent extraction

`searchRealEstateInfo` extracts, inline, an intent record (location,
budget, property type, transaction type, bedroom count) from the query.
Each JavaScript regular expression with a capturing group is translated
to a scanner with the same leftmost-position, greedy-with-backtracking
semantics; the derivations are noted at each definition. -/

/-- Try `f` at each position of the text, leftmost match first
(the JavaScript regex position scan). -/
def scanFirst {a : Type} (f : List Char -> Option a) : List Char -> Option a
  | [] => f []
  | c :: cs => (f (c :: cs)).orElse (fun _ => scanFirst f cs)

/-- Does a boolean position test succeed anywhere in the text? -/
def scanAny (f : List Char -> Bool) : List Char -> Bool
  | [] => f []
  | c :: cs => f (c :: cs) || scanAny f cs

/-- Greedily drop `\s*`. -/
def wsStarDrop (cs : List Char) : List Char := cs.dropWhile isJsWs

/-- Require `\s+`, then continue; whitespace is consumed greedily, which
is faithful because no continuation used below can begin with `\s`. -/
def wsPlusThen {a : Type} (f : List Char -> Option a) (cs : List Char) : Option a :=
  if (cs.takeWhile isJsWs).length = 0 then none else f (wsStarDrop cs)

/-- Remainders after an optional alternation `(?:a1|a2|…)?` in JavaScript
priority order: each matching alternative (in order), then skipping. -/
def optAltRemainders (alts : List String) (cs : List Char) : List (List Char) :=
  (alts.filterMap fun a =>
    if startsWithCIL a.data cs then some (cs.drop a.data.length) else none) ++ [cs]

/-- First alternative remainder on which the continuation succeeds
(backtracking across an alternation). -/
def firstSome {a : Type} (xs : List (List Char)) (f : List Char -> Option a) : Option a :=
  xs.findSome? f

/-- Character class `[\w\s,]` of the location patterns. -/
def locClassChar (c : Char) : Bool := isJsWordChar c || isJsWs c || c == ','

/-- The tail `\s+([\w\s,]+)` of location patterns 1 and 3, applied after
the preposition.  Greedy `\s+` takes the whole whitespace run; if the next
character is in the class the group captures the maximal class run from
there; otherwise `\s+` backtracks one character (possible only when the
run has length at least 2) and the group captures that single whitespace
character; otherwise the position fails. -/
def afterPrepCapture (cs : List Char) : Option (List Char) :=
  let ws := cs.takeWhile isJsWs
  if ws.length = 0 then none
  else
    match cs.drop ws.length with
    | c :: rest =>
      if locClassChar c then some ((c :: rest).takeWhile locClassChar)
      else if 2 <= ws.length then some [ws.getLastD ' ']
      else none
    | [] => if 2 <= ws.length then some [ws.getLastD ' '] else none

/-- Prepositions of location patterns 1 and 3, in alternation order. -/
def prepositions : List String := ["in", "at", "near", "around", "within"]

/-- Location pattern 1, `(?:in|at|near|around|within)\s+([\w\s,]+)`,
tried at one position. -/
def locPattern1At (cs : List Char) : Option (List Char) :=
  prepositions.findSome? fun p =>
    if startsWithCIL p.data cs then afterPrepCapture (cs.drop p.data.length) else none

/-- Trailing descriptors of location pattern 2, in alternation order. -/
def locUnits : List String := ["area", "locality", "region", "district", "neighborhood"]

/-- `\s+(?:area|…)` test used after the captured group of pattern 2. -/
def wsThenLocUnit (cs : List Char) : Bool :=
  let n := (cs.takeWhile isJsWs).length
  n != 0 && locUnits.any fun u => startsWithCIL u.data (cs.drop n)

/-- Backtracking over the greedy group length of location pattern 2,
longest first. -/
def locP2TryLens (cs : List Char) : Nat -> Option (List Char)
  | 0 => none
  | g + 1 =>
    if wsThenLocUnit (cs.drop (g + 1)) then some (cs.take (g + 1))
    else locP2TryLens cs g

/-- Location pattern 2, `([\w\s,]+)\s+(?:area|locality|region|district|neighborhood)`,
tried at one position: the greedy group takes the maximal class run and
backtracks until the whitespace-and-descriptor tail fits. -/
def locPattern2At (cs : List Char) : Option (List Char) :=
  let m := (cs.takeWhile locClassChar).length
  if m = 0 then none else locP2TryLens cs m

/-- Location pattern 3,
`properties?\s+(?:in|at|near|around|within)\s+([\w\s,]+)`, tried at one
position (note the source literal matches `propertie` or `properties`,
never bare `property`). -/
def locPattern3At (cs : List Char) : Option (List Char) :=
  if startsWithCIL ("propertie").data cs then
    let tail1 := cs.drop 9
    let withS : Option (List Char) :=
      match tail1 with
      | c :: t => if c.toLower == 's' then wsPlusThen locPattern1At t else none
      | [] => none
    withS.orElse (fun _ => wsPlusThen locPattern1At tail1)
  else none

/-- The city-name alternation of location pattern 4 (transliterated from
the source, in order, duplicates included). -/
def cityList : List String :=
  [ "mumbai", "delhi", "bangalore", "hyderabad", "chennai", "kolkata", "pune", "ahmedabad",
   "jaipur", "surat", "lucknow", "kanpur", "nagpur", "indore", "thane", "bhopal",
   "visakhapatnam", "patna", "vadodara", "ghaziabad", "ludhiana", "agra", "nashik", "faridabad",
   "meerut", "rajkot", "varanasi", "srinagar", "aurangabad", "dhanbad", "amritsar",
   "navi mumbai", "allahabad", "ranchi", "howrah", "coimbatore", "jabalpur", "gwalior",
   "vijayawada", "jodhpur", "madurai", "raipur", "kota", "guwahati", "chandigarh", "solapur",
   "hubli", "dharwad", "bareilly", "moradabad", "mysore", "gurgaon", "aligarh", "jalandhar",
   "tiruchirappalli", "bhubaneswar", "salem", "mira-bhayandar", "warangal", "guntur",
   "bhiwandi", "saharanpur", "gorakhpur", "bikaner", "amravati", "noida", "jamshedpur",
   "bhilai", "cuttack", "firozabad", "kochi", "nellore", "bhavnagar", "dehradun", "durgapur",
   "asansol", "rourkela", "nanded", "kolhapur", "ajmer", "akola", "gulbarga", "jamnagar",
   "ujjain", "loni", "siliguri", "jhansi", "ulhasnagar", "jammu", "sangli-miraj", "mangalore",
   "erode", "belgaum", "ambattur", "tirunelveli", "malegaon", "gaya", "jalgaon", "udaipur",
   "maheshtala", "tirupur", "davanagere", "kozhikode", "akbarpur", "korba", "bhilwara",
   "berhampur", "muzaffarpur", "ahmednagar", "mathura", "kollam", "avadi", "kadapa",
   "kamarhati", "sambalpur", "bilaspur", "shahjahanpur", "satara", "bijapur", "rampur",
   "shimoga", "chandrapur", "tumkur", "muzaffarnagar", "bhagalpur", "bally", "panihati",
   "rohtak", "sagar", "bidar", "brahmapur", "baranagar", "darbhanga", "sonipat", "srinagar",
   "pondicherry", "durg", "imphal", "ratlam", "hapur", "anantapur", "arrah", "karimnagar",
   "etawah", "ambarnath", "north", "dumdum", "bharatpur", "begusarai", "new", "delhi",
   "gandhidham", "barasat", "guwahati", "rae", "bareli", "khammam", "bhilai", "nagar",
   "bhiwani", "cuddalore", "rajpur", "sonarpur", "rajahmundry", "bokaro", "south", "dumdum",
   "bellary", "patiala", "gopalpur", "agartala", "bhagalpur", "bhatpara", "hazaribagh", "dhule",
   "panvel", "nellore", "mango", "malegaon", "gaya", "haldia", "kurnool", "ajmer", "tiruppur",
   "ambala", "panipat", "kottayam", "gandhidham", "tirupati", "karnal", "bathinda", "rampur",
   "shivamogga", "raebareli", "khammam", "bhilai", "nagar", "bhiwani", "cuddalore", "rajpur",
   "sonarpur", "rajahmundry", "bokaro", "south", "dumdum", "bellary", "patiala", "gopalpur",
   "agartala", "bhagalpur", "bhatpara", "hazaribagh", "dhule", "panvel", "nellore", "mango",
   "malegaon", "gaya", "haldia", "kurnool", "ajmer", "tiruppur", "ambala", "panipat",
   "kottayam", "gandhidham", "tirupati", "karnal", "bathinda", "rampur", "shivamogga",
   "raebareli", "khammam", "bhilai", "nagar", "bhiwani", "cuddalore", "rajpur", "sonarpur",
   "rajahmundry", "bokaro", "south", "dumdum", "bellary", "patiala", "gopalpur", "agartala",
   "bhagalpur", "bhatpara", "hazaribagh", "dhule", "panvel", "nellore", "mango", "malegaon",
   "gaya", "haldia", "kurnool", "ajmer", "tiruppur", "ambala", "panipat", "kottayam",
   "gandhidham", "tirupati", "karnal", "bathinda", "rampur", "shivamogga", "raebareli"]

/-- Location pattern 4 at one position: first city alternative matching
case-insensitively; the capture is the matched text. -/
def locPattern4At (cs : List Char) : Option (List Char) :=
  cityList.findSome? fun city =>
    if startsWithCIL city.data cs then some (cs.take city.data.length) else none

/-- Location extraction: the four patterns in order; the first match with
a non-empty group stops the loop and its capture is trimmed. -/
def extractLocation (query : String) : String :=
  match scanFirst locPattern1At query.data with
  | some cap => String.mk (jsTrimL cap)
  | none =>
    match scanFirst locPattern2At query.data with
    | some cap => String.mk (jsTrimL cap)
    | none =>
      match scanFirst locPattern3At query.data with
      | some cap => String.mk (jsTrimL cap)
      | none =>
        match scanFirst locPattern4At query.data with
        | some cap => String.mk (jsTrimL cap)
        | none => ""


/-- Character class `[\d,.]` of the amount captures. -/
def numTailClass (c : Char) : Bool := isJsDigit c || c == ',' || c == '.'

/-- The capture `(\d[\d,.]*)`: a digit, then the maximal run of the
class (greedy; nothing after it in any budget pattern can begin with a
class character, so no backtracking arises). -/
def digitCapture (cs : List Char) : Option (List Char) :=
  match cs with
  | c :: _ => if isJsDigit c then some (cs.takeWhile numTailClass) else none
  | [] => none

/-- Leading keywords of budget patterns 1 and 3, in alternation order. -/
def budgetLeads : List String := ["budget", "price", "cost", "value", "worth", "range"]

/-- The optional connective `(?:of|is|around|about)?` of budget pattern 1. -/
def budgetMids : List String := ["of", "is", "around", "about"]

/-- The optional currency marker `(?:rs\.?|inr|₹)?`, with the optional
dot of `rs\.?` expanded greedily. -/
def rsAlts : List String := ["rs.", "rs", "inr", "₹"]

/-- `(?:rs\.?|inr|₹)?\s*(\d[\d,.]*)`: optional currency marker (with
backtracking), greedy whitespace, then the amount capture. -/
def rsThenDigits (cs : List Char) : Option (List Char) :=
  firstSome (optAltRemainders rsAlts cs) fun r => digitCapture (wsStarDrop r)

/-- Budget pattern 1,
`(?:budget|price|cost|value|worth|range)\s+(?:of|is|around|about)?\s*(?:rs\.?|inr|₹)?\s*(\d[\d,.]*)`,
tried at one position. -/
def budgetPattern1At (cs : List Char) : Option (List Char) :=
  budgetLeads.findSome? fun lead =>
    if startsWithCIL lead.data cs then
      wsPlusThen
        (fun t => firstSome (optAltRemainders budgetMids t) fun t2 =>
          rsThenDigits (wsStarDrop t2))
        (cs.drop lead.data.length)
    else none

/-- The unit alternation of budget pattern 2. -/
def budgetUnits2 : List String :=
  ["rs.", "rs", "inr", "₹", "lakh", "crore", "k", "l", "cr"]

/-- Budget pattern 2, `(\d[\d,.]*)\s*(?:rs\.?|inr|₹|lakh|crore|k|l|cr)`,
tried at one position. -/
def budgetPattern2At (cs : List Char) : Option (List Char) := do
  let cap <- digitCapture cs
  let rest := wsStarDrop (cs.drop cap.length)
  if budgetUnits2.any (fun u => startsWithCIL u.data rest) then some cap else none

/-- The range connectives of budget pattern 3. -/
def betweenAlts : List String := ["between", "from"]

/-- The separator alternation `(?:to|-|and)` of budget pattern 3. -/
def rangeSepAlts : List String := ["to", "-", "and"]

/-- Budget pattern 3,
`(?:budget|…)\s+(?:between|from)\s*(?:rs\.?|inr|₹)?\s*(\d[\d,.]*)\s*(?:to|-|and)\s*(?:rs\.?|inr|₹)?\s*(\d[\d,.]*)`,
tried at one position; only the first captured amount is returned
(`match[1]`). -/
def budgetPattern3At (cs : List Char) : Option (List Char) :=
  budgetLeads.findSome? fun lead =>
    if startsWithCIL lead.data cs then
      wsPlusThen
        (fun t => betweenAlts.findSome? fun b =>
          if startsWithCIL b.data t then
            firstSome (optAltRemainders rsAlts (wsStarDrop (t.drop b.data.length)))
              fun t3 => do
                let w3 := wsStarDrop t3
                let cap <- digitCapture w3
                let t4 := wsStarDrop (w3.drop cap.length)
                rangeSepAlts.findSome? fun sep =>
                  if startsWithCIL sep.data t4 then
                    firstSome
                      (optAltRemainders rsAlts (wsStarDrop (t4.drop sep.data.length)))
                      fun t5 => (digitCapture (wsStarDrop t5)).map fun _ => cap
                  else none
          else none)
        (cs.drop lead.data.length)
    else none

/-- The comparator alternation of budget pattern 4, in order
(`maximum` before `max`). -/
def underAlts : List String := ["under", "below", "less than", "maximum", "max"]

/-- The comparator alternation of budget pattern 5. -/
def overAlts : List String := ["above", "over", "more than", "minimum", "min"]

/-- Budget patterns 4 and 5,
`(?:under|below|less than|maximum|max)\s*(?:rs\.?|inr|₹)?\s*(\d[\d,.]*)`
and its `above|over|…` twin, tried at one position. -/
def budgetCmpPatternAt (alts : List String) (cs : List Char) : Option (List Char) :=
  alts.findSome? fun a =>
    if startsWithCIL a.data cs then rsThenDigits (wsStarDrop (cs.drop a.data.length))
    else none

/-- `match[1].replace(/[,.]/g, '')`. -/
def stripSeps (cs : List Char) : List Char :=
  cs.filter fun c => !(c == ',' || c == '.')

/-- Budget extraction: the five patterns in order; the first match wins
and its capture has the separators stripped. -/
def extractBudget (query : String) : String :=
  match scanFirst budgetPattern1At query.data with
  | some cap => String.mk (stripSeps cap)
  | none =>
    match scanFirst budgetPattern2At query.data with
    | some cap => String.mk (stripSeps cap)
    | none =>
      match scanFirst budgetPattern3At query.data with
      | some cap => String.mk (stripSeps cap)
      | none =>
        match scanFirst (budgetCmpPatternAt underAlts) query.data with
        | some cap => String.mk (stripSeps cap)
        | none =>
          match scanFirst (budgetCmpPatternAt overAlts) query.data with
          | some cap => String.mk (stripSeps cap)
          | none => ""

/-- The fixed property-type vocabulary, in list order. -/
def propertyTypes : List String :=
  [ "apartment", "house", "villa", "flat", "plot", "land", "penthouse", "studio", "duplex",
   "bungalow", "cottage", "farmhouse", "rowhouse", "townhouse", "1bhk", "2bhk", "3bhk", "4bhk",
   "5bhk", "rk", "single room", "commercial", "office", "shop", "retail", "warehouse",
   "industrial", "pg", "paying guest", "independent house", "independent floor",
   "builder floor", "kothi", "haveli", "residential apartment", "residential plot",
   "residential land", "residential house", "commercial property", "commercial space",
   "commercial plot", "commercial land", "agricultural land", "farm land", "farm house",
   "resort", "service apartment"]

/-- Property-type extraction: first vocabulary entry contained in the
lowercased query. -/
def extractPropertyType (query : String) : String :=
  match propertyTypes.find? (fun t => jsIncludes (jsToLower query) t) with
  | some t => t
  | none => ""

/-- Buy-intent terms (checked first). -/
def buyTerms : List String :=
  ["buy", "purchase", "buying", "purchasing", "own", "owning", "investment",
   "investing", "kharidna", "kharid", "खरीदना", "खरीद", "विकय", "खरेदी", "ખરીદવું"]

/-- Rent-intent terms (checked only when no buy term was found). -/
def rentTerms : List String :=
  ["rent", "renting", "lease", "leasing", "temporary", "short term", "kiraya",
   "किराया", "भाड़े", "भाडे", "ભાડે"]

/-- Transaction-type extraction: substring containment of a buy term,
then of a rent term, on the lowercased query. -/
def extractTransactionType (query : String) : String :=
  if buyTerms.any (fun t => jsIncludes (jsToLower query) t) then "buy"
  else if rentTerms.any (fun t => jsIncludes (jsToLower query) t) then "rent"
  else ""

/-- Bedroom patterns 1-3, `(\d+)\s*bhk`, `(\d+)\s*bedroom`,
`(\d+)\s*bed`, tried at one position: greedy digit capture, greedy
whitespace, then the unit (the unit begins with a letter, so the greedy
choices need no backtracking). -/
def bhkDigitsAt (unit : String) (cs : List Char) : Option (List Char) :=
  match cs with
  | c :: _ =>
    if isJsDigit c then
      let run := cs.takeWhile isJsDigit
      if startsWithCIL unit.data (wsStarDrop (cs.drop run.length)) then some run
      else none
    else none
  | [] => none

/-- The word/digit alternation of bedroom pattern 4, in order. -/
def bedroomWordAlts : List String :=
  ["one", "two", "three", "four", "five", "1", "2", "3", "4", "5"]

/-- The unit alternation `(?:bedroom|bhk|bed)` of bedroom patterns 4-5. -/
def bedroomUnits : List String := ["bedroom", "bhk", "bed"]

/-- Bedroom pattern 4, `(one|two|three|four|five|1|2|3|4|5)\s*(?:bedroom|bhk|bed)`,
tried at one position; the capture is the matched alternative text. -/
def bedroomWordPatternAt (cs : List Char) : Option (List Char) :=
  bedroomWordAlts.findSome? fun w =>
    if startsWithCIL w.data cs then
      if bedroomUnits.any
          (fun u => startsWithCIL u.data (wsStarDrop (cs.drop w.data.length))) then
        some (cs.take w.data.length)
      else none
    else none

/-- The word alternation of bedroom pattern 5 (a non-capturing group in
the source: `(?:single|double|triple)`). -/
def bedroomP5Words : List String := ["single", "double", "triple"]

/-- Bedroom pattern 5, `(?:single|double|triple)\s*(?:bedroom|bhk|bed)`,
as a boolean test at one position. -/
def bedroomPattern5At (cs : List Char) : Bool :=
  bedroomP5Words.any fun w =>
    startsWithCIL w.data cs &&
      bedroomUnits.any fun u => startsWithCIL u.data (wsStarDrop (cs.drop w.data.length))

/-- Does bedroom pattern 5 match anywhere in the query? -/
def bedroomPattern5Matches (query : String) : Bool :=
  scanAny bedroomPattern5At query.data

/-- The word-to-digit conversion chain applied to a bedroom capture
(`match[1]`); digit captures fall through unchanged. -/
def convertBedroomWord (cap : List Char) : String :=
  let low : String := String.mk (lowerL cap)
  if low = "one" then "1"
  else if low = "two" then "2"
  else if low = "three" then "3"
  else if low = "four" then "4"
  else if low = "five" then "5"
  else if low = "single" then "1"
  else if low = "double" then "2"
  else if low = "triple" then "3"
  else String.mk cap

/-- Bedroom-count extraction: the five patterns in order, taking the
first whose `match[1]` is a non-empty capture.  Pattern 5 groups
non-capturingly, so even when it matches, `match[1]` is undefined, the
source guard `if (match && match[1])` fails, and — it being the last
pattern — the loop ends with the empty result. -/
def extractBedrooms (query : String) : String :=
  match scanFirst (bhkDigitsAt "bhk") query.data with
  | some cap => convertBedroomWord cap
  | none =>
    match scanFirst (bhkDigitsAt "bedroom") query.data with
    | some cap => convertBedroomWord cap
    | none =>
      match scanFirst (bhkDigitsAt "bed") query.data with
      | some cap => convertBedroomWord cap
      | none =>
        match scanFirst bedroomWordPatternAt query.data with
        | some cap => convertBedroomWord cap
        | none => ""

/-- The caller-supplied partial lead record.  The JavaScript `leadInfo`
object can carry any of the five intent slots; `searchRealEstateInfo`
reads only `preferredLocation`, `budget` and `propertyType` from it. -/
structure LeadInfo where
  preferredLocation : String := ""
  budget : String := ""
  propertyType : String := ""
  transactionType : String := ""
  bedroomCount : String := ""
deriving Repr, DecidableEq

/-- The extracted intent record. -/
structure IntentRecord where
  location : String
  budget : String
  propertyType : String
  transactionType : String
  bedroomCount : String
deriving Repr, DecidableEq

/-- The intent-extraction phase of `searchRealEstateInfo` (lines 60-177):
location, budget and property type are taken verbatim from `leadInfo`
when truthy there; transaction type and bedroom count are always
extracted from the query. -/
def extractIntent (query : String) (known : LeadInfo) : IntentRecord where
  location :=
    if known.preferredLocation = "" then extractLocation query
    else known.preferredLocation
  budget := if known.budget = "" then extractBudget query else known.budget
  propertyType :=
    if known.propertyType = "" then extractPropertyType query
    else known.propertyType
  transactionType := extractTransactionType query
  bedroomCount := extractBedrooms query


/-! ## Web search service: query enhancement (lines 179-219) -/

/-- The fixed list of premium real-estate portals from the constructor. -/
def premiumPortals : List String :=
  ["99acres.com", "magicbricks.com", "housing.com", "nobroker.in",
   "commonfloor.com", "squareyards.com", "makaan.com", "proptiger.com"]

/-- `this.premiumPortals.join(' OR ')`. -/
def portalQueryPart : String := String.intercalate " OR " premiumPortals

/-- Add the real-estate qualifier when the original query has none of the
five keywords (the source tests the `query` parameter, which at this
point still equals the running string). -/
def stepRealEstate (query enhanced : String) : String :=
  if !(jsIncludes (jsToLower query) "real estate") &&
     !(jsIncludes (jsToLower query) "property") &&
     !(jsIncludes (jsToLower query) "flat") &&
     !(jsIncludes (jsToLower query) "house") &&
     !(jsIncludes (jsToLower query) "apartment") then
    enhanced ++ " real estate property"
  else enhanced

/-- Add `in <location>` when extracted and not already present. -/
def stepLocation (location enhanced : String) : String :=
  if location != "" &&
     !(jsIncludes (jsToLower enhanced) (jsToLower location)) then
    enhanced ++ " in " ++ location
  else enhanced

/-- Add the property type when extracted and not already present. -/
def stepPropertyType (propertyType enhanced : String) : String :=
  if propertyType != "" &&
     !(jsIncludes (jsToLower enhanced) (jsToLower propertyType)) then
    enhanced ++ " " ++ propertyType
  else enhanced

/-- Add `for <transactionType>` when extracted and not already present
(the needle is not lowercased in the source). -/
def stepTransaction (transactionType enhanced : String) : String :=
  if transactionType != "" &&
     !(jsIncludes (jsToLower enhanced) transactionType) then
    enhanced ++ " for " ++ transactionType
  else enhanced

/-- Add the budget digits when extracted and not already present
(a case-sensitive containment check in the source). -/
def stepBudget (budget enhanced : String) : String :=
  if budget != "" && !(jsIncludes enhanced budget) then
    enhanced ++ " " ++ budget
  else enhanced

/-- Add `<bedrooms> bhk` when extracted and neither `<bedrooms> bhk` nor
`<bedrooms> bedroom` is already present. -/
def stepBedrooms (bedroomCount enhanced : String) : String :=
  if bedroomCount != "" &&
     !(jsIncludes (jsToLower enhanced) (bedroomCount ++ " bhk")) &&
     !(jsIncludes (jsToLower enhanced) (bedroomCount ++ " bedroom")) then
    enhanced ++ " " ++ bedroomCount ++ " bhk"
  else enhanced

/-- The query-enhancement phase of `searchRealEstateInfo`: the sequential
presence-checked appends, then the portal disjunction, which the source
appends unconditionally. -/
def buildEnhancedQuery (query : String) (intent : IntentRecord) : String :=
  stepBedrooms intent.bedroomCount
    (stepBudget intent.budget
      (stepTransaction intent.transactionType
        (stepPropertyType intent.propertyType
          (stepLocation intent.location
            (stepRealEstate query query))))) ++ " (" ++ portalQueryPart ++ ")"

/-! ### Claims C1 and C5 -/

/-- A fully-populated caller record used in witnesses/counterexamples. -/
def knownAllSlots : LeadInfo :=
  { preferredLocation := "Mumbai", budget := "5000000", propertyType := "flat",
    transactionType := "rent", bedroomCount := "3" }

/-- Claim C1 counterexample: with a caller-supplied record whose
transaction-type slot is the non-empty value `rent`, extraction from a
query containing `buy` yields `buy` — the known value is not copied
verbatim, refuting the claim for the transaction-type slot. -/
theorem c1_counterexample :
    (extractIntent "I want to buy a flat" knownAllSlots).transactionType = "buy"
    ∧ knownAllSlots.transactionType = "rent" := by
  exact ⟨by decide, by decide⟩

/-- A partial caller record carrying only the location slot, as in the
spec's own example. -/
def knownMumbaiOnly : LeadInfo := { preferredLocation := "Mumbai" }

/-- Claim C1 (amended), per slot: each of location, budget and property
type is copied verbatim from the known record whenever that slot is
non-empty there (and is freshly extracted from the query exactly when it
is empty there, so a known value is never overwritten); transaction type
and bedroom count are always extracted afresh from the query text,
ignoring any caller-supplied value. -/
theorem c1_intent_precedence (query : String) (known : LeadInfo) :
    (known.preferredLocation ≠ "" →
      (extractIntent query known).location = known.preferredLocation)
    ∧ (known.preferredLocation = "" →
      (extractIntent query known).location = extractLocation query)
    ∧ (known.budget ≠ "" → (extractIntent query known).budget = known.budget)
    ∧ (known.budget = "" →
      (extractIntent query known).budget = extractBudget query)
    ∧ (known.propertyType ≠ "" →
      (extractIntent query known).propertyType = known.propertyType)
    ∧ (known.propertyType = "" →
      (extractIntent query known).propertyType = extractPropertyType query)
    ∧ (extractIntent query known).transactionType = extractTransactionType query
    ∧ (extractIntent query known).bedroomCount = extractBedrooms query := by
  unfold extractIntent
  refine ⟨?_, ?_, ?_, ?_, ?_, ?_, rfl, rfl⟩ <;> intro h <;> simp [h]

/-- Witness for C1 on two concrete records: the location-only record
(budget and property type empty, hence freshly extracted; transaction and
bedroom always fresh) and the fully-populated record (all three slots
copied verbatim). -/
theorem c1_intent_precedence_witness :
    (extractIntent "2 bhk in Pune" knownMumbaiOnly).location =
      knownMumbaiOnly.preferredLocation
    ∧ (extractIntent "2 bhk in Pune" knownMumbaiOnly).budget =
      extractBudget "2 bhk in Pune"
    ∧ (extractIntent "2 bhk in Pune" knownMumbaiOnly).propertyType =
      extractPropertyType "2 bhk in Pune"
    ∧ (extractIntent "2 bhk in Pune" knownMumbaiOnly).transactionType =
      extractTransactionType "2 bhk in Pune"
    ∧ (extractIntent "2 bhk in Pune" knownMumbaiOnly).bedroomCount =
      extractBedrooms "2 bhk in Pune"
    ∧ (extractIntent "I want to buy a flat" knownAllSlots).location =
      knownAllSlots.preferredLocation
    ∧ (extractIntent "I want to buy a flat" knownAllSlots).budget =
      knownAllSlots.budget
    ∧ (extractIntent "I want to buy a flat" knownAllSlots).propertyType =
      knownAllSlots.propertyType := by
  have h1 := c1_intent_precedence "2 bhk in Pune" knownMumbaiOnly
  have h2 := c1_intent_precedence "I want to buy a flat" knownAllSlots
  exact ⟨h1.1 (by decide), h1.2.2.2.1 (by decide), h1.2.2.2.2.2.1 (by decide),
    h1.2.2.2.2.2.2.1, h1.2.2.2.2.2.2.2, h2.1 (by decide),
    h2.2.2.1 (by decide), h2.2.2.2.2.1 (by decide)⟩

/-- Claim C5: the word-to-digit mapping for `single`/`double`/`triple`
never applies.  Bedroom pattern 5 matches the query `double bedroom`, but
its groups are non-capturing, so the source guard `if (match && match[1])`
fails and extraction returns the empty string instead of the claimed `2`:
the conversion branches for these words are dead code. -/
theorem c5_double_bedroom_bug :
    extractBedrooms "double bedroom" = ""
    ∧ bedroomPattern5Matches "double bedroom" = true
    ∧ convertBedroomWord ("double").data = "2" := by
  exact ⟨by decide, by decide, by decide⟩

/-! ### Claim C2: enhancement is not idempotent (portal suffix grows) -/

theorem startsWithL_append {p : List Char} :
    ∀ {cs ds : List Char}, startsWithL p cs = true →
      startsWithL p (cs ++ ds) = true := by
  induction p with
  | nil => intro cs ds _; simp [startsWithL]
  | cons a ps ih =>
    intro cs ds h
    cases cs with
    | nil => simp [startsWithL] at h
    | cons c t =>
      simp only [startsWithL, Bool.and_eq_true] at h
      simp only [List.cons_append, startsWithL, Bool.and_eq_true]
      exact ⟨h.1, ih h.2⟩

theorem containsL_cons_eq (c : Char) (t pat : List Char) :
    containsL (c :: t) pat = (startsWithL pat (c :: t) || containsL t pat) := by
  rw [containsL]

theorem containsL_of_startsWith {cs pat : List Char}
    (h : startsWithL pat cs = true) : containsL cs pat = true := by
  cases cs <;> rw [containsL] <;> simp [h]

theorem startsWithL_refl : ∀ (p : List Char), startsWithL p p = true := by
  intro p
  induction p with
  | nil => rfl
  | cons a t ih => simp [startsWithL, ih]

theorem containsL_refl (p : List Char) : containsL p p = true :=
  containsL_of_startsWith (startsWithL_refl p)

theorem containsL_append_left {pat : List Char} :
    ∀ {a b : List Char}, containsL a pat = true →
      containsL (a ++ b) pat = true := by
  intro a
  induction a with
  | nil =>
    intro b h
    rw [containsL] at h
    simp only [Bool.or_eq_true] at h
    rcases h with h | h
    · exact containsL_of_startsWith (startsWithL_append h)
    · simp at h
  | cons c t ih =>
    intro b h
    rw [containsL_cons_eq] at h
    rw [List.cons_append, containsL_cons_eq]
    rcases Bool.or_eq_true_iff.mp h with h | h
    · rw [← List.cons_append]
      exact Bool.or_eq_true_iff.mpr (Or.inl (startsWithL_append h))
    · exact Bool.or_eq_true_iff.mpr (Or.inr (ih h))

theorem containsL_append_right {pat : List Char} :
    ∀ {a b : List Char}, containsL b pat = true →
      containsL (a ++ b) pat = true := by
  intro a
  induction a with
  | nil => intro b h; simpa using h
  | cons c t ih =>
    intro b h
    rw [List.cons_append, containsL_cons_eq]
    exact Bool.or_eq_true_iff.mpr (Or.inr (ih h))

theorem string_data_append (a b : String) : (a ++ b).data = a.data ++ b.data := rfl

theorem jsToLower_data (s : String) : (jsToLower s).data = lowerL s.data := rfl

theorem jsIncludes_append_left {a x : String} (b : String)
    (h : jsIncludes a x = true) : jsIncludes (a ++ b) x = true := by
  unfold jsIncludes at *
  rw [string_data_append]
  exact containsL_append_left h

theorem jsIncludes_append_right {b x : String} (a : String)
    (h : jsIncludes b x = true) : jsIncludes (a ++ b) x = true := by
  unfold jsIncludes at *
  rw [string_data_append]
  exact containsL_append_right h

theorem jsIncludes_self (x : String) : jsIncludes x x = true :=
  containsL_refl x.data

theorem jsToLower_append (a b : String) :
    jsToLower (a ++ b) = jsToLower a ++ jsToLower b := by
  apply String.ext
  rw [jsToLower_data, string_data_append, string_data_append, jsToLower_data,
    jsToLower_data]
  exact List.map_append Char.toLower a.data b.data

theorem jsIncludesLower_append_left {a x : String} (b : String)
    (h : jsIncludes (jsToLower a) x = true) :
    jsIncludes (jsToLower (a ++ b)) x = true := by
  rw [jsToLower_append]
  exact jsIncludes_append_left _ h

theorem jsIncludesLower_append_right {b x : String} (a : String)
    (h : jsIncludes (jsToLower b) x = true) :
    jsIncludes (jsToLower (a ++ b)) x = true := by
  rw [jsToLower_append]
  exact jsIncludes_append_right _ h

/-- The five-keyword disjunction tested by the real-estate qualifier. -/
def reKeywordFound (s : String) : Bool :=
  jsIncludes (jsToLower s) "real estate" || jsIncludes (jsToLower s) "property" ||
  jsIncludes (jsToLower s) "flat" || jsIncludes (jsToLower s) "house" ||
  jsIncludes (jsToLower s) "apartment"

theorem stepRealEstate_guard (q : String) :
    (!(jsIncludes (jsToLower q) "real estate") &&
     !(jsIncludes (jsToLower q) "property") &&
     !(jsIncludes (jsToLower q) "flat") &&
     !(jsIncludes (jsToLower q) "house") &&
     !(jsIncludes (jsToLower q) "apartment")) = !(reKeywordFound q) := by
  unfold reKeywordFound
  cases jsIncludes (jsToLower q) "real estate" <;>
    cases jsIncludes (jsToLower q) "property" <;>
    cases jsIncludes (jsToLower q) "flat" <;>
    cases jsIncludes (jsToLower q) "house" <;>
    cases jsIncludes (jsToLower q) "apartment" <;> rfl

theorem stepRealEstate_id {q : String} (e : String)
    (h : reKeywordFound q = true) : stepRealEstate q e = e := by
  unfold stepRealEstate
  rw [stepRealEstate_guard, h]
  rfl

theorem reKeywordFound_mono {a : String} (b : String)
    (h : reKeywordFound a = true) : reKeywordFound (a ++ b) = true := by
  unfold reKeywordFound at *
  simp only [Bool.or_eq_true] at h ⊢
  rcases h with (((h | h) | h) | h) | h
  · exact Or.inl (Or.inl (Or.inl (Or.inl (jsIncludesLower_append_left b h))))
  · exact Or.inl (Or.inl (Or.inl (Or.inr (jsIncludesLower_append_left b h))))
  · exact Or.inl (Or.inl (Or.inr (jsIncludesLower_append_left b h)))
  · exact Or.inl (Or.inr (jsIncludesLower_append_left b h))
  · exact Or.inr (jsIncludesLower_append_left b h)

theorem reKeywordFound_stepRealEstate (q : String) :
    reKeywordFound (stepRealEstate q q) = true := by
  unfold stepRealEstate
  rw [stepRealEstate_guard]
  cases hg : reKeywordFound q with
  | false =>
    simp only [hg, Bool.not_false, if_true]
    have hp : jsIncludes (jsToLower (" real estate property" : String))
        ("property" : String) = true := by decide
    have := jsIncludesLower_append_right (x := "property") q hp
    unfold reKeywordFound
    simp [this]
  | true => simp [hg]

theorem stepLocation_id {v : String} (e : String)
    (h : v = "" ∨ jsIncludes (jsToLower e) (jsToLower v) = true) :
    stepLocation v e = e := by
  unfold stepLocation
  rcases h with rfl | h
  · simp
  · simp [h]

theorem stepPropertyType_id {v : String} (e : String)
    (h : v = "" ∨ jsIncludes (jsToLower e) (jsToLower v) = true) :
    stepPropertyType v e = e := by
  unfold stepPropertyType
  rcases h with rfl | h
  · simp
  · simp [h]

theorem stepTransaction_id {v : String} (e : String)
    (h : v = "" ∨ jsIncludes (jsToLower e) v = true) :
    stepTransaction v e = e := by
  unfold stepTransaction
  rcases h with rfl | h
  · simp
  · simp [h]

theorem stepBudget_id {v : String} (e : String)
    (h : v = "" ∨ jsIncludes e v = true) : stepBudget v e = e := by
  unfold stepBudget
  rcases h with rfl | h
  · simp
  · simp [h]

theorem stepBedrooms_id {v : String} (e : String)
    (h : v = "" ∨ jsIncludes (jsToLower e) (v ++ " bhk") = true ∨
      jsIncludes (jsToLower e) (v ++ " bedroom") = true) :
    stepBedrooms v e = e := by
  unfold stepBedrooms
  rcases h with rfl | h | h
  · simp
  · simp [h]
  · simp [h]

theorem string_append_assoc (a b c : String) : a ++ b ++ c = a ++ (b ++ c) := by
  apply String.ext
  simp only [string_data_append, List.append_assoc]

theorem stepRealEstate_ext (q e : String) : ∃ u, stepRealEstate q e = e ++ u := by
  unfold stepRealEstate
  split
  · exact ⟨" real estate property", rfl⟩
  · exact ⟨"", by simp⟩

theorem stepLocation_ext (v e : String) : ∃ u, stepLocation v e = e ++ u := by
  unfold stepLocation
  split
  · exact ⟨" in " ++ v, by rw [string_append_assoc]⟩
  · exact ⟨"", by simp⟩

theorem stepPropertyType_ext (v e : String) : ∃ u, stepPropertyType v e = e ++ u := by
  unfold stepPropertyType
  split
  · exact ⟨" " ++ v, by rw [string_append_assoc]⟩
  · exact ⟨"", by simp⟩

theorem stepTransaction_ext (v e : String) : ∃ u, stepTransaction v e = e ++ u := by
  unfold stepTransaction
  split
  · exact ⟨" for " ++ v, by rw [string_append_assoc]⟩
  · exact ⟨"", by simp⟩

theorem stepBudget_ext (v e : String) : ∃ u, stepBudget v e = e ++ u := by
  unfold stepBudget
  split
  · exact ⟨" " ++ v, by rw [string_append_assoc]⟩
  · exact ⟨"", by simp⟩

theorem stepBedrooms_ext (v e : String) : ∃ u, stepBedrooms v e = e ++ u := by
  unfold stepBedrooms
  split
  · refine ⟨" " ++ v ++ " bhk", ?_⟩
    apply String.ext
    simp [string_data_append]
  · exact ⟨"", by simp⟩

theorem stepLocation_contains {v : String} (e : String) (hv : v ≠ "") :
    jsIncludes (jsToLower (stepLocation v e)) (jsToLower v) = true := by
  unfold stepLocation
  split
  · rw [show e ++ " in " ++ v = (e ++ " in ") ++ v from rfl]
    exact jsIncludesLower_append_right _ (jsIncludes_self _)
  · next hguard =>
    simp only [Bool.and_eq_true, bne_iff_ne, ne_eq, Bool.not_eq_true', not_and] at hguard
    have h2 := hguard hv
    simpa using h2

theorem stepPropertyType_contains {v : String} (e : String) (hv : v ≠ "") :
    jsIncludes (jsToLower (stepPropertyType v e)) (jsToLower v) = true := by
  unfold stepPropertyType
  split
  · rw [show e ++ " " ++ v = (e ++ " ") ++ v from rfl]
    exact jsIncludesLower_append_right _ (jsIncludes_self _)
  · next hguard =>
    simp only [Bool.and_eq_true, bne_iff_ne, ne_eq, Bool.not_eq_true', not_and] at hguard
    have h2 := hguard hv
    simpa using h2

theorem stepTransaction_contains {v : String} (e : String) (hv : v ≠ "")
    (hlow : jsToLower v = v) :
    jsIncludes (jsToLower (stepTransaction v e)) v = true := by
  unfold stepTransaction
  split
  · rw [show e ++ " for " ++ v = (e ++ " for ") ++ v from rfl, jsToLower_append, hlow]
    exact jsIncludes_append_right _ (jsIncludes_self _)
  · next hguard =>
    simp only [Bool.and_eq_true, bne_iff_ne, ne_eq, Bool.not_eq_true', not_and] at hguard
    have h2 := hguard hv
    simpa using h2

theorem stepBudget_contains {v : String} (e : String) (hv : v ≠ "") :
    jsIncludes (stepBudget v e) v = true := by
  unfold stepBudget
  split
  · rw [show e ++ " " ++ v = (e ++ " ") ++ v from rfl]
    exact jsIncludes_append_right _ (jsIncludes_self _)
  · next hguard =>
    simp only [Bool.and_eq_true, bne_iff_ne, ne_eq, Bool.not_eq_true', not_and] at hguard
    have h2 := hguard hv
    simpa using h2

theorem stepBedrooms_contains {v : String} (e : String) (hv : v ≠ "")
    (hlow : jsToLower v = v) :
    jsIncludes (jsToLower (stepBedrooms v e)) (v ++ " bhk") = true ∨
      jsIncludes (jsToLower (stepBedrooms v e)) (v ++ " bedroom") = true := by
  unfold stepBedrooms
  split
  · left
    have hshape : e ++ " " ++ v ++ " bhk" = (e ++ " ") ++ (v ++ " bhk") := by
      apply String.ext
      simp [string_data_append]
    rw [hshape, jsToLower_append, jsToLower_append v " bhk", hlow,
      show jsToLower " bhk" = " bhk" from by decide]
    exact jsIncludes_append_right _ (jsIncludes_self _)
  · next hguard =>
    cases h1 : jsIncludes (jsToLower e) (v ++ " bhk") with
    | true => exact Or.inl rfl
    | false =>
      cases h2 : jsIncludes (jsToLower e) (v ++ " bedroom") with
      | true => exact Or.inr rfl
      | false =>
        exfalso
        apply hguard
        simp [hv, h1, h2]

theorem presLower_of_ext {e e' x : String} (hext : ∃ u, e' = e ++ u)
    (h : jsIncludes (jsToLower e) x = true) :
    jsIncludes (jsToLower e') x = true := by
  rcases hext with ⟨u, rfl⟩
  exact jsIncludesLower_append_left _ h

theorem pres_of_ext {e e' x : String} (hext : ∃ u, e' = e ++ u)
    (h : jsIncludes e x = true) : jsIncludes e' x = true := by
  rcases hext with ⟨u, rfl⟩
  exact jsIncludes_append_left _ h

theorem presKw_of_ext {e e' : String} (hext : ∃ u, e' = e ++ u)
    (h : reKeywordFound e = true) : reKeywordFound e' = true := by
  rcases hext with ⟨u, rfl⟩
  exact reKeywordFound_mono _ h

/-- Claim C2 counterexample: enhancement applied to its own output
appends the portal disjunction a second time, so it is not idempotent. -/
theorem c2_counterexample :
    buildEnhancedQuery
        (buildEnhancedQuery "hello" ⟨"", "", "", "", ""⟩) ⟨"", "", "", "", ""⟩ ≠
      buildEnhancedQuery "hello" ⟨"", "", "", "", ""⟩ := by decide

/-- Claim C2 (amended): every presence-checked component is appended at
most once — re-applying the enhancement to its own output appends none of
them again — but the trusted-portal disjunction is appended
unconditionally on every application, so the second application yields
exactly the first output extended by one more portal suffix.  (Stated for
intents whose transaction-type and bedroom slots are lowercase-invariant,
as produced by extraction: `buy`/`rent`/digits.) -/
theorem c2_enhancement_growth (query : String) (intent : IntentRecord)
    (htx : jsToLower intent.transactionType = intent.transactionType)
    (hbed : jsToLower intent.bedroomCount = intent.bedroomCount) :
    buildEnhancedQuery (buildEnhancedQuery query intent) intent =
      buildEnhancedQuery query intent ++ " (" ++ portalQueryPart ++ ")" := by
  obtain ⟨loc, bud, pt, tx, bc⟩ := intent
  simp only at htx hbed
  have hr2ext := stepLocation_ext loc (stepRealEstate query query)
  have hr3ext := stepPropertyType_ext pt
    (stepLocation loc (stepRealEstate query query))
  have hr4ext := stepTransaction_ext tx
    (stepPropertyType pt (stepLocation loc (stepRealEstate query query)))
  have hr5ext := stepBudget_ext bud
    (stepTransaction tx (stepPropertyType pt
      (stepLocation loc (stepRealEstate query query))))
  have hr6ext := stepBedrooms_ext bc
    (stepBudget bud (stepTransaction tx (stepPropertyType pt
      (stepLocation loc (stepRealEstate query query)))))
  have hE1eq : buildEnhancedQuery query ⟨loc, bud, pt, tx, bc⟩ =
      stepBedrooms bc (stepBudget bud (stepTransaction tx (stepPropertyType pt
        (stepLocation loc (stepRealEstate query query))))) ++
        " (" ++ portalQueryPart ++ ")" := rfl
  have hportalext : ∃ u, buildEnhancedQuery query ⟨loc, bud, pt, tx, bc⟩ =
      stepBedrooms bc (stepBudget bud (stepTransaction tx (stepPropertyType pt
        (stepLocation loc (stepRealEstate query query))))) ++ u := by
    refine ⟨" (" ++ portalQueryPart ++ ")", ?_⟩
    rw [hE1eq]
    apply String.ext
    simp [string_data_append]
  -- keyword presence in the final first-pass output
  have hkw : reKeywordFound (buildEnhancedQuery query ⟨loc, bud, pt, tx, bc⟩) = true := by
    apply presKw_of_ext hportalext
    apply presKw_of_ext hr6ext
    apply presKw_of_ext hr5ext
    apply presKw_of_ext hr4ext
    apply presKw_of_ext hr3ext
    apply presKw_of_ext hr2ext
    exact reKeywordFound_stepRealEstate query
  -- location containment
  have hloc : loc = "" ∨
      jsIncludes (jsToLower (buildEnhancedQuery query ⟨loc, bud, pt, tx, bc⟩))
        (jsToLower loc) = true := by
    by_cases hl : loc = ""
    · exact Or.inl hl
    · refine Or.inr ?_
      apply presLower_of_ext hportalext
      apply presLower_of_ext hr6ext
      apply presLower_of_ext hr5ext
      apply presLower_of_ext hr4ext
      apply presLower_of_ext hr3ext
      exact stepLocation_contains _ hl
  -- property-type containment
  have hpt : pt = "" ∨
      jsIncludes (jsToLower (buildEnhancedQuery query ⟨loc, bud, pt, tx, bc⟩))
        (jsToLower pt) = true := by
    by_cases hp : pt = ""
    · exact Or.inl hp
    · refine Or.inr ?_
      apply presLower_of_ext hportalext
      apply presLower_of_ext hr6ext
      apply presLower_of_ext hr5ext
      apply presLower_of_ext hr4ext
      exact stepPropertyType_contains _ hp
  -- transaction-type containment
  have htx2 : tx = "" ∨
      jsIncludes (jsToLower (buildEnhancedQuery query ⟨loc, bud, pt, tx, bc⟩))
        tx = true := by
    by_cases ht : tx = ""
    · exact Or.inl ht
    · refine Or.inr ?_
      apply presLower_of_ext hportalext
      apply presLower_of_ext hr6ext
      apply presLower_of_ext hr5ext
      exact stepTransaction_contains _ ht htx
  -- budget containment
  have hbud : bud = "" ∨
      jsIncludes (buildEnhancedQuery query ⟨loc, bud, pt, tx, bc⟩) bud = true := by
    by_cases hb : bud = ""
    · exact Or.inl hb
    · refine Or.inr ?_
      apply pres_of_ext hportalext
      apply pres_of_ext hr6ext
      exact stepBudget_contains _ hb
  -- bedroom containment
  have hbc : bc = "" ∨
      jsIncludes (jsToLower (buildEnhancedQuery query ⟨loc, bud, pt, tx, bc⟩))
        (bc ++ " bhk") = true ∨
      jsIncludes (jsToLower (buildEnhancedQuery query ⟨loc, bud, pt, tx, bc⟩))
        (bc ++ " bedroom") = true := by
    by_cases hb : bc = ""
    · exact Or.inl hb
    · rcases stepBedrooms_contains
        (stepBudget bud (stepTransaction tx (stepPropertyType pt
          (stepLocation loc (stepRealEstate query query))))) hb hbed with h | h
      · exact Or.inr (Or.inl (presLower_of_ext hportalext h))
      · exact Or.inr (Or.inr (presLower_of_ext hportalext h))
  -- the second pass leaves every component untouched
  show stepBedrooms bc (stepBudget bud (stepTransaction tx (stepPropertyType pt
      (stepLocation loc (stepRealEstate
        (buildEnhancedQuery query ⟨loc, bud, pt, tx, bc⟩)
        (buildEnhancedQuery query ⟨loc, bud, pt, tx, bc⟩)))))) ++
      " (" ++ portalQueryPart ++ ")" =
    buildEnhancedQuery query ⟨loc, bud, pt, tx, bc⟩ ++ " (" ++ portalQueryPart ++ ")"
  rw [stepRealEstate_id _ hkw, stepLocation_id _ hloc, stepPropertyType_id _ hpt,
    stepTransaction_id _ htx2, stepBudget_id _ hbud, stepBedrooms_id _ hbc]

theorem c2_enhancement_growth_witness :
    buildEnhancedQuery
        (buildEnhancedQuery "2 bhk in pune" ⟨"pune", "5000000", "flat", "buy", "2"⟩)
        ⟨"pune", "5000000", "flat", "buy", "2"⟩ =
      buildEnhancedQuery "2 bhk in pune" ⟨"pune", "5000000", "flat", "buy", "2"⟩ ++
        " (" ++ portalQueryPart ++ ")" :=
  c2_enhancement_growth "2 bhk in pune" ⟨"pune", "5000000", "flat", "buy", "2"⟩
    (by decide) (by decide)

/-! ## A small token matcher for boolean regex tests

Each regular expression used only as a test (never for captures) is
transliterated into a list of tokens; alternations are lifted to the top
level as lists of variants (purely existential semantics, so this
preserves `RegExp.prototype.test`). -/

inductive RTok where
  | one : (Char → Bool) → RTok
  | opt : (Char → Bool) → RTok
  | star : (Char → Bool) → RTok
  | eos : RTok

/-- Does the token list match a prefix of `cs`? -/
def matchToks : List RTok → List Char → Bool
  | [], _ => true
  | .eos :: ts, cs => cs.isEmpty && matchToks ts cs
  | .one _ :: _, [] => false
  | .one p :: ts, c :: cs => p c && matchToks ts cs
  | .opt _ :: ts, [] => matchToks ts []
  | .opt p :: ts, c :: cs => (p c && matchToks ts cs) || matchToks ts (c :: cs)
  | .star _ :: ts, [] => matchToks ts []
  | .star p :: ts, c :: cs =>
    (p c && matchToks (.star p :: ts) cs) || matchToks ts (c :: cs)
termination_by ts cs => (cs.length, ts.length)

/-- `RegExp.prototype.test`: does the token list match at any position? -/
def reTest (ts : List RTok) (cs : List Char) : Bool := scanAny (matchToks ts) cs

/-- A case-insensitive literal as tokens. -/
def litCI (s : String) : List RTok :=
  s.data.map fun c => RTok.one fun x => x.toLower == c.toLower

/-- A case-sensitive literal as tokens. -/
def litEx (s : String) : List RTok :=
  s.data.map fun c => RTok.one fun x => x == c

/-- `\s*`. -/
def wsStarT : RTok := RTok.star isJsWs

/-- `\d+`. -/
def digitPlusT : List RTok := [RTok.one isJsDigit, RTok.star isJsDigit]

/-- Case-insensitive substring containment (a regex that is a plain
literal alternation, tested with the `i` flag). -/
def containsCIL (cs pat : List Char) : Bool := scanAny (startsWithCIL pat) cs

/-- Any member of a literal alternation occurs (case-insensitively). -/
def containsAnyCIL (cs : List Char) (pats : List String) : Bool :=
  pats.any fun p => containsCIL cs p.data

/-! ## Web search service: relevance scoring (`calculateRelevanceScore`) -/

/-- Replace the first occurrence of `pat` (JavaScript
`String.prototype.replace` with a string argument). -/
def replaceOnceL (pat repl : List Char) : List Char → List Char
  | [] => []
  | c :: t =>
    if startsWithL pat (c :: t) then repl ++ (c :: t).drop pat.length
    else c :: replaceOnceL pat repl t

/-- `String.prototype.replace(pat, repl)` (first occurrence only). -/
def jsReplaceOnce (s pat repl : String) : String :=
  String.mk (replaceOnceL pat.data repl.data s.data)

/-- `premiumPortals.map(p => p.replace('.com', '').replace('.in', ''))`. -/
def premiumNames : List String :=
  premiumPortals.map fun p => jsReplaceOnce (jsReplaceOnce p ".com" "") ".in" ""

/-- The standard-tier site names. -/
def standardSites : List String :=
  ["commonfloor", "squareyards", "makaan", "proptiger", "propertywala",
   "indiaproperty"]

/-- The other-tier site names. -/
def otherSites : List String :=
  ["olx", "quikr", "nestaway", "zolo", "stanza", "colive", "facebook",
   "instagram", "linkedin"]

/-- The source-domain tier component of the score: the premium loop runs
first; the standard and other loops are guarded by `score === 0`, which at
those points equals the premium contribution. -/
def tierScore (link : String) : Int :=
  let score : Int := 0
  let score := if premiumNames.any (fun s => jsIncludes link s) then score + 20 else score
  let score :=
    if score = 0 then
      if standardSites.any (fun s => jsIncludes link s) then score + 15 else score
    else score
  let score :=
    if score = 0 then
      if otherSites.any (fun s => jsIncludes link s) then score + 5 else score
    else score
  score

/-- The `relatedTypes` lookup table. -/
def relatedTypes (pt : String) : Option (List String) :=
  if pt = "apartment" then some ["flat", "condo", "condominium", "residential apartment"]
  else if pt = "flat" then some ["apartment", "condo", "condominium", "residential flat"]
  else if pt = "house" then some ["villa", "bungalow", "independent", "kothi", "residential house"]
  else if pt = "villa" then some ["house", "bungalow", "independent", "kothi"]
  else if pt = "plot" then some ["land", "residential plot", "residential land"]
  else if pt = "land" then some ["plot", "residential land", "residential plot"]
  else if pt = "1bhk" then some ["1 bhk", "one bedroom", "1 bedroom", "single bedroom"]
  else if pt = "2bhk" then some ["2 bhk", "two bedroom", "2 bedroom", "double bedroom"]
  else if pt = "3bhk" then some ["3 bhk", "three bedroom", "3 bedroom", "triple bedroom"]
  else if pt = "4bhk" then some ["4 bhk", "four bedroom", "4 bedroom", "quadruple bedroom"]
  else if pt = "commercial" then some ["office", "shop", "retail", "commercial property", "commercial space"]
  else none

/-- Property-type component: exact in title, else exact in snippet, else
related type in either. -/
def propertyTypeScore (title snippet pt : String) : Int :=
  if pt = "" then 0
  else if jsIncludes title pt then 12
  else if jsIncludes snippet pt then 8
  else
    match relatedTypes pt with
    | some rel =>
      if rel.any (fun r => jsIncludes title r || jsIncludes snippet r) then 6 else 0
    | none => 0

/-- `String.prototype.split(/\s+/)` (leading/trailing separators yield
empty fragments, as in JavaScript). -/
def splitWsGo : List Char → List Char → List (List Char)
  | cur, [] => [cur.reverse]
  | cur, c :: rest =>
    if isJsWs c then cur.reverse :: splitWsGo [] (rest.dropWhile isJsWs)
    else splitWsGo (c :: cur) rest
termination_by _ cs => cs.length
decreasing_by
  · simp only [List.length_cons]
    have : (rest.dropWhile isJsWs).length ≤ rest.length :=
      List.Sublist.length_le (List.dropWhile_sublist _)
    omega
  · simp [List.length_cons]

def jsSplitWs (s : String) : List (List Char) := splitWsGo [] s.data

/-- Location component: exact in title, exact in snippet, else a
whitespace-split token of length above 3 in either. -/
def locationScore (title snippet location : String) : Int :=
  if location = "" then 0
  else
    let locLower := jsToLower location
    if jsIncludes title locLower then 15
    else if jsIncludes snippet locLower then 10
    else if (jsSplitWs locLower).any (fun part =>
        decide (3 < part.length) &&
          (containsL title.data part || containsL snippet.data part)) then 5
    else 0

/-- The eleven price/budget regexes, each as a list of token-list
variants (inner alternations and optional groups are distributed; a
trailing optional group cannot affect a boolean test and is dropped). -/
def pricePatterns : List (List (List RTok)) :=
  [ [litEx "₹" ++ [wsStarT, .one isJsDigit, .star numTailClass]],
    [litCI "rs" ++ [.opt (fun c => c == '.'), wsStarT, .one isJsDigit, .star numTailClass]],
    [litCI "inr" ++ [wsStarT, .one isJsDigit, .star numTailClass]],
    ["lakh", "crore", "k", "l", "cr"].map (fun u =>
      [RTok.one isJsDigit, .star numTailClass, wsStarT] ++ litCI u),
    [litCI "price" ++ [wsStarT] ++ litEx ":" ++ [wsStarT, .one isJsDigit, .star numTailClass]],
    [litCI "cost" ++ [wsStarT] ++ litEx ":" ++ [wsStarT, .one isJsDigit, .star numTailClass]],
    [litCI "budget" ++ [wsStarT] ++ litEx ":" ++ [wsStarT, .one isJsDigit, .star numTailClass]],
    [digitPlusT ++ [wsStarT] ++ litCI "cr",
     digitPlusT ++ [RTok.one (fun c => c == '.')] ++ digitPlusT ++ [wsStarT] ++ litCI "cr"],
    [digitPlusT ++ [wsStarT] ++ litCI "l",
     digitPlusT ++ [RTok.one (fun c => c == '.')] ++ digitPlusT ++ [wsStarT] ++ litCI "l"],
    [digitPlusT ++ [wsStarT] ++ litCI "lacs",
     digitPlusT ++ [RTok.one (fun c => c == '.')] ++ digitPlusT ++ [wsStarT] ++ litCI "lacs"],
    [digitPlusT ++ [wsStarT] ++ litCI "lakhs",
     digitPlusT ++ [RTok.one (fun c => c == '.')] ++ digitPlusT ++ [wsStarT] ++ litCI "lakhs"] ]

/-- Price component: any price pattern in title or snippet. -/
def priceScore (title snippet : String) : Int :=
  if pricePatterns.any (fun p => p.any fun v =>
      reTest v title.data || reTest v snippet.data) then 8
  else 0

/-- `parseInt` on the digit strings produced by bedroom extraction
(leading whitespace skipped; `NaN` is `none`). -/
def jsParseIntPrefix (s : String) : Option Nat :=
  let t := s.data.dropWhile isJsWs
  let ds := t.takeWhile isJsDigit
  if ds.isEmpty then none
  else some (ds.foldl (fun n c => n * 10 + (c.toNat - 48)) 0)

/-- Bedroom component: a `<n> bhk|bedroom|bed|rk` pattern in title or
snippet, else the spacious/large fallback for counts of 3 or more. -/
def bedroomScore (title snippet bedrooms : String) : Int :=
  if bedrooms = "" then 0
  else if (["bhk", "bedroom", "bed", "rk"].map fun u =>
      litCI bedrooms ++ [wsStarT] ++ litCI u).any
        (fun pat => reTest pat title.data || reTest pat snippet.data) then 15
  else if (match jsParseIntPrefix bedrooms with
           | some n => decide (3 <= n)
           | none => false) &&
      (jsIncludes title "spacious" || jsIncludes title "large" ||
       jsIncludes snippet "spacious" || jsIncludes snippet "large") then 3
  else 0

/-- The 23 property-detail regexes, each as token-list variants. -/
def propertyDetailPatterns : List (List (List RTok)) :=
  [ [digitPlusT ++ [wsStarT] ++ litCI "bhk"],
    [digitPlusT ++ [wsStarT] ++ litCI "bedroom"],
    [digitPlusT ++ [wsStarT] ++ litCI "bath"],
    [digitPlusT ++ [wsStarT] ++ litCI "sq" ++ [.opt (fun c => c == '.'), wsStarT] ++ litCI "ft"],
    [digitPlusT ++ [wsStarT] ++ litCI "square" ++ [wsStarT] ++ litCI "feet"],
    [digitPlusT ++ [wsStarT] ++ litCI "sq" ++ [.opt (fun c => c == '.'), wsStarT] ++ litCI "m"],
    [digitPlusT ++ [wsStarT] ++ litCI "acre"],
    [digitPlusT ++ [wsStarT] ++ litCI "yard"],
    [litCI "amenities"],
    [litCI "furnished"],
    [litCI "semi-furnished"],
    [litCI "unfurnished"],
    [litCI "carpet" ++ [wsStarT] ++ litCI "area"],
    [litCI "built" ++ [wsStarT] ++ litCI "up" ++ [wsStarT] ++ litCI "area"],
    [litCI "super" ++ [wsStarT] ++ litCI "built" ++ [wsStarT] ++ litCI "up"],
    [litCI "floor" ++ [wsStarT] ++ litCI "plan"],
    [litCI "master" ++ [wsStarT] ++ litCI "bedroom"],
    [litCI "attached" ++ [wsStarT] ++ litCI "bath"],
    [litCI "modular" ++ [wsStarT] ++ litCI "kitchen"],
    [litCI "power" ++ [wsStarT] ++ litCI "backup"],
    [litCI "24x7" ++ [wsStarT] ++ litCI "water"],
    [litCI "security"],
    [litCI "gym", litCI "swimming" ++ [wsStarT] ++ litCI "pool",
     litCI "club" ++ [wsStarT] ++ litCI "house", litCI "garden", litCI "park"] ]

/-- Detail-richness component: graduated banding on the number of detail
patterns matching title or snippet. -/
def detailRichnessScore (title snippet : String) : Int :=
  let detailMatchCount := (propertyDetailPatterns.filter fun p =>
    p.any fun v => reTest v title.data || reTest v snippet.data).length
  if 5 <= detailMatchCount then 12
  else if 3 <= detailMatchCount then 8
  else if 1 <= detailMatchCount then 4
  else 0

/-- The 15 recency regexes, each as token-list variants. -/
def recencyPatterns : List (List (List RTok)) :=
  [ [litCI "new" ++ [wsStarT] ++ litCI "launch"],
    [litCI "just" ++ [wsStarT] ++ litCI "launch"],
    [litCI "recent"],
    [litCI "latest"],
    [litCI "new" ++ [wsStarT] ++ litCI "project"],
    [litCI "under" ++ [wsStarT] ++ litCI "construction"],
    [litCI "ready" ++ [wsStarT] ++ litCI "to" ++ [wsStarT] ++ litCI "move"],
    [litCI "immediate" ++ [wsStarT] ++ litCI "possession"],
    [[RTok.one isJsDigit, .opt isJsDigit, wsStarT] ++ litCI "day" ++
      [.opt (fun c => c.toLower == 's'), wsStarT] ++ litCI "ago"],
    [[RTok.one isJsDigit, .opt isJsDigit, wsStarT] ++ litCI "hour" ++
      [.opt (fun c => c.toLower == 's'), wsStarT] ++ litCI "ago"],
    [litCI "possession" ++ [wsStarT] ++ litCI "in" ++ [wsStarT] ++
      [RTok.one isJsDigit, .one isJsDigit, .one isJsDigit, .one isJsDigit]],
    [litCI "completion" ++ [wsStarT] ++ litCI "in" ++ [wsStarT] ++
      [RTok.one isJsDigit, .one isJsDigit, .one isJsDigit, .one isJsDigit]],
    [litCI "ready" ++ [wsStarT] ++ litCI "to" ++ [wsStarT] ++ litCI "move" ++
      [wsStarT] ++ litCI "in"],
    [litCI "newly" ++ [wsStarT] ++ litCI "built"],
    [litCI "fresh" ++ [wsStarT] ++ litCI "listing"] ]

/-- Recency component: any recency pattern in title or snippet. -/
def recencyScore (title snippet : String) : Int :=
  if recencyPatterns.any (fun p => p.any fun v =>
      reTest v title.data || reTest v snippet.data) then 5
  else 0

/-- The buy-intent regexes of the scorer (all literal alternations). -/
def buyScorePatterns : List String :=
  ["buy", "sale", "selling", "purchase", "invest", "ownership",
   "खरीदना", "खरीद", "विकय", "खरेदी", "ખરીદવું"]

/-- The rent-intent regexes of the scorer. -/
def rentScorePatterns : List String :=
  ["rent", "lease", "renting", "leasing", "to let", "for let",
   "किराया", "भाड़े", "भाडे", "ભાડે"]

/-- Transaction-type component: bonus for matching intent, penalty for
the opposite kind. -/
def transactionScore (title snippet tx : String) : Int :=
  if tx = "buy" then
    (if buyScorePatterns.any (fun p =>
        containsCIL title.data p.data || containsCIL snippet.data p.data) then 10 else 0) +
    (if rentScorePatterns.any (fun p =>
        containsCIL title.data p.data || containsCIL snippet.data p.data) then -15 else 0)
  else if tx = "rent" then
    (if rentScorePatterns.any (fun p =>
        containsCIL title.data p.data || containsCIL snippet.data p.data) then 10 else 0) +
    (if buyScorePatterns.any (fun p =>
        containsCIL title.data p.data || containsCIL snippet.data p.data) then -15 else 0)
  else 0

/-- The broad real-estate vocabulary of the off-topic penalty. -/
def realEstateVocab : List String :=
  [ "property", "estate", "home", "house", "apartment", "flat", "villa", "plot", "land", "bhk",
   "residential", "commercial", "rent", "sale", "broker", "agent", "realty", "builder",
   "construction", "project", "township", "society", "floor", "bedroom", "bathroom", "kitchen",
   "hall", "balcony", "terrace", "parking", "amenities", "possession", "ownership", "lease"]

/-- Off-topic component: penalty when neither title nor snippet matches
the broad vocabulary. -/
def offTopicScore (title snippet : String) : Int :=
  if !(containsAnyCIL title.data realEstateVocab) &&
     !(containsAnyCIL snippet.data realEstateVocab) then -20
  else 0

/-- The plain-substring detail terms of the second detail bonus. -/
def detailTerms : List String :=
  [ "bhk", "bedroom", "bathroom", "sq ft", "square feet", "carpet area", "built up",
   "super built up", "floor", "storey", "parking", "garden", "balcony", "terrace", "kitchen",
   "hall", "living room", "dining room", "study room", "servant room", "pooja room",
   "store room", "lobby", "entrance", "lift", "elevator", "power backup", "water supply",
   "security", "gym", "swimming pool", "club house", "park", "playground", "jogging track",
   "tennis court", "basketball court", "badminton court", "squash court", "amphitheatre",
   "banquet hall", "party hall", "community hall", "shopping center", "school", "hospital",
   "market", "mall", "metro", "bus stop", "railway station", "airport"]

/-- Detail-term component: graduated banding on the number of terms
contained in title or snippet. -/
def detailTermsScore (title snippet : String) : Int :=
  let detailCount := (detailTerms.filter fun t =>
    jsIncludes title t || jsIncludes snippet t).length
  if 5 <= detailCount then 10
  else if 3 <= detailCount then 6
  else if 1 <= detailCount then 3
  else 0

/-- `og:` metatags of a result's pagemap (absent/empty values modelled as
`none`, matching JavaScript truthiness checks). -/
structure Metatags where
  ogDescription : Option String := none
  ogImage : Option String := none
deriving Repr, DecidableEq

/-- Product structured data of a pagemap. -/
structure PagemapProduct where
  price : Option String := none
  name : Option String := none
deriving Repr, DecidableEq

/-- Structured data attached to a raw search hit. -/
structure Pagemap where
  metatags : Option Metatags := none
  product : Option PagemapProduct := none
  offer : Bool := false
  image : Bool := false
  cseImage : Bool := false
deriving Repr, DecidableEq

/-- A raw search hit as consumed by the ranking phase. -/
structure SearchItem where
  title : String
  snippet : String
  link : String
  pagemap : Option Pagemap := none
deriving Repr, DecidableEq

/-- Structured-metadata component: additive, independent bonuses. -/
def pagemapScore (pm : Option Pagemap) : Int :=
  match pm with
  | none => 0
  | some p =>
    (if p.metatags.isSome then 5 else 0) +
    (if p.product.isSome then 8 else 0) +
    (if p.offer then 5 else 0) +
    (if p.image || p.cseImage then 5 else 0)

/-- Completeness component. -/
def completenessScore (title snippet link : String) : Int :=
  if decide (20 < title.length) && decide (50 < snippet.length) &&
     decide (15 < link.length) then 5
  else 0

/-- `calculateRelevanceScore` as the sum of its independent components
(all later additions in the source are unconditional on the running
score; only the tier block reads it, via its `score === 0` gates).  The
`query` parameter is lowercased into `queryLower` by the source but then
never used. -/
def calculateRelevanceScore (item : SearchItem)
    (_query location propertyType transactionType bedrooms : String) : Int :=
  let title := jsToLower item.title
  let snippet := jsToLower item.snippet
  let link := jsToLower item.link
  tierScore link +
  propertyTypeScore title snippet propertyType +
  locationScore title snippet location +
  priceScore title snippet +
  bedroomScore title snippet bedrooms +
  detailRichnessScore title snippet +
  recencyScore title snippet +
  transactionScore title snippet transactionType +
  offTopicScore title snippet +
  detailTermsScore title snippet +
  pagemapScore item.pagemap +
  completenessScore title snippet link

/-! ## Web search service: ranking (lines 264-308) -/

/-- A hit with its transient relevance score attached. -/
structure ScoredResult where
  title : String
  snippet : String
  link : String
  pagemap : Option Pagemap
  relevanceScore : Int
deriving Repr, DecidableEq

/-- The scoring map over the raw hits. -/
def scoreResults (items : List SearchItem)
    (query location propertyType transactionType bedrooms : String) :
    List ScoredResult :=
  items.map fun it =>
    { title := it.title, snippet := it.snippet, link := it.link,
      pagemap := it.pagemap,
      relevanceScore :=
        calculateRelevanceScore it query location propertyType transactionType
          bedrooms }

/-- Stable insertion for the descending sort: an element passes over an
earlier one only when its score is strictly greater, which is the
ECMAScript stable `Array.prototype.sort` behaviour for the comparator
`(a, b) => b.relevanceScore - a.relevanceScore`. -/
def insertDesc (x : ScoredResult) : List ScoredResult → List ScoredResult
  | [] => [x]
  | y :: l =>
    if y.relevanceScore < x.relevanceScore then x :: y :: l
    else y :: insertDesc x l

/-- The stable descending sort of `results.sort((a, b) => b.relevanceScore - a.relevanceScore)`. -/
def sortByScoreDesc (l : List ScoredResult) : List ScoredResult :=
  l.foldl (fun acc x => insertDesc x acc) []

/-- The final shape of a ranked hit after pagemap details are pulled up. -/
structure EnhancedItem where
  title : String
  link : String
  snippet : String
  description : Option String := none
  image : Option String := none
  price : Option String := none
  name : Option String := none
deriving Repr, DecidableEq

/-- The per-hit enhancement map (lines 277-305): start from title, link
and snippet and pull optional details out of the pagemap. -/
def toEnhancedItem (r : ScoredResult) : EnhancedItem :=
  let base : EnhancedItem := { title := r.title, link := r.link, snippet := r.snippet }
  match r.pagemap with
  | none => base
  | some pm =>
    let base :=
      match pm.metatags with
      | some mt =>
        let base :=
          match mt.ogDescription with
          | some d => { base with description := some d }
          | none => base
        match mt.ogImage with
        | some i => { base with image := some i }
        | none => base
      | none => base
    match pm.product with
    | some pr =>
      let base :=
        match pr.price with
        | some p => { base with price := some p }
        | none => base
      match pr.name with
      | some n => { base with name := some n }
      | none => base
    | none => base

/-- The ranking phase of `searchRealEstateInfo`: score, stable-sort
descending, enhance, take the top 5. -/
def rankResults (items : List SearchItem)
    (query location propertyType transactionType bedrooms : String) :
    List EnhancedItem :=
  (((sortByScoreDesc
      (scoreResults items query location propertyType transactionType bedrooms)).map
    toEnhancedItem).take 5)

/-! ### Claim C3: ranking is a bounded, stable, descending sort -/

/-- The descending order on scores used by the sort. -/
def scoreGE (a b : ScoredResult) : Prop := b.relevanceScore ≤ a.relevanceScore

theorem mem_insertDesc {x z : ScoredResult} :
    ∀ {l : List ScoredResult}, z ∈ insertDesc x l → z = x ∨ z ∈ l := by
  intro l h
  induction l with
  | nil => simpa [insertDesc] using h
  | cons y t ih =>
    rw [insertDesc] at h
    split at h
    · rcases List.mem_cons.mp h with rfl | h2
      · exact Or.inl rfl
      · exact Or.inr h2
    · rcases List.mem_cons.mp h with rfl | h2
      · exact Or.inr (List.mem_cons_self _ _)
      · rcases ih h2 with h3 | h3
        · exact Or.inl h3
        · exact Or.inr (List.mem_cons_of_mem _ h3)

theorem insertDesc_pairwise {x : ScoredResult} :
    ∀ {l : List ScoredResult}, List.Pairwise scoreGE l →
      List.Pairwise scoreGE (insertDesc x l) := by
  intro l h
  induction l with
  | nil => simp [insertDesc, List.pairwise_cons]
  | cons y t ih =>
    rw [insertDesc]
    rcases List.pairwise_cons.mp h with ⟨hy, ht⟩
    split
    · next hlt =>
      refine List.pairwise_cons.mpr ⟨?_, h⟩
      intro z hz
      rcases List.mem_cons.mp hz with rfl | hz2
      · exact le_of_lt hlt
      · exact le_trans (hy z hz2) (le_of_lt hlt)
    · next hge =>
      refine List.pairwise_cons.mpr ⟨?_, ih ht⟩
      intro z hz
      rcases mem_insertDesc hz with rfl | hz2
      · exact le_of_not_lt hge
      · exact hy z hz2

theorem foldl_insertDesc_pairwise :
    ∀ (l acc : List ScoredResult), List.Pairwise scoreGE acc →
      List.Pairwise scoreGE (l.foldl (fun acc x => insertDesc x acc) acc) := by
  intro l
  induction l with
  | nil => intro acc h; exact h
  | cons x t ih =>
    intro acc h
    exact ih _ (insertDesc_pairwise h)

theorem sortByScoreDesc_pairwise (l : List ScoredResult) :
    List.Pairwise scoreGE (sortByScoreDesc l) :=
  foldl_insertDesc_pairwise l [] List.Pairwise.nil

theorem filter_eq_nil_of_lt {s : Int} {y : ScoredResult} {l : List ScoredResult}
    (h : List.Pairwise scoreGE (y :: l)) (hy : y.relevanceScore < s) :
    (y :: l).filter (fun r => r.relevanceScore == s) = [] := by
  rw [List.filter_eq_nil_iff]
  intro z hz
  rcases List.mem_cons.mp hz with rfl | hz2
  · simp only [beq_iff_eq]
    omega
  · have := (List.pairwise_cons.mp h).1 z hz2
    unfold scoreGE at this
    simp only [beq_iff_eq]
    omega

theorem filter_insertDesc {s : Int} {x : ScoredResult} :
    ∀ {l : List ScoredResult}, List.Pairwise scoreGE l →
      (insertDesc x l).filter (fun r => r.relevanceScore == s) =
        (if x.relevanceScore == s then
          l.filter (fun r => r.relevanceScore == s) ++ [x]
        else l.filter (fun r => r.relevanceScore == s)) := by
  intro l h
  induction l with
  | nil =>
    simp only [insertDesc, List.filter_nil]
    by_cases hx : x.relevanceScore = s <;> simp [hx]
  | cons y t ih =>
    rw [insertDesc]
    rcases List.pairwise_cons.mp h with ⟨hy, ht⟩
    split
    · next hlt =>
      by_cases hx : x.relevanceScore = s
      · have hnil : (y :: t).filter (fun r => r.relevanceScore == s) = [] :=
          filter_eq_nil_of_lt h (by omega)
        rw [List.filter_cons, hnil]
        simp [hx]
      · rw [List.filter_cons]
        simp [hx]
    · next hge =>
      simp only [List.filter_cons]
      rw [ih ht]
      by_cases hx : x.relevanceScore = s <;> by_cases hys : y.relevanceScore = s <;>
        simp [hx, hys]

theorem filter_foldl_insertDesc {s : Int} :
    ∀ (l acc : List ScoredResult), List.Pairwise scoreGE acc →
      (l.foldl (fun acc x => insertDesc x acc) acc).filter
          (fun r => r.relevanceScore == s) =
        acc.filter (fun r => r.relevanceScore == s) ++
          l.filter (fun r => r.relevanceScore == s) := by
  intro l
  induction l with
  | nil => intro acc _; simp
  | cons x t ih =>
    intro acc h
    simp only [List.foldl_cons]
    rw [ih _ (insertDesc_pairwise h), filter_insertDesc h, List.filter_cons]
    by_cases hx : x.relevanceScore = s <;> simp [hx]

/-- Stability of the sort: for every score value, filtering the sorted
list returns exactly the same-score hits in their original order. -/
theorem sortByScoreDesc_stable (l : List ScoredResult) (s : Int) :
    (sortByScoreDesc l).filter (fun r => r.relevanceScore == s) =
      l.filter (fun r => r.relevanceScore == s) := by
  unfold sortByScoreDesc
  rw [filter_foldl_insertDesc l [] List.Pairwise.nil]
  simp

/-- Claim C3: the ranked list has length at most 5; the sorted scored
list is ordered by non-increasing relevance score; hits with equal scores
keep their original relative order (for every score value, filtering the
sorted list equals filtering the input); and the ranked output is exactly
the enhancement of the top five of that sorted list. -/
theorem c3_rankResults_bounded_sorted_stable (items : List SearchItem)
    (q loc pt tx bd : String) (s : Int) :
    (rankResults items q loc pt tx bd).length ≤ 5
    ∧ List.Pairwise scoreGE (sortByScoreDesc (scoreResults items q loc pt tx bd))
    ∧ (sortByScoreDesc (scoreResults items q loc pt tx bd)).filter
        (fun r => r.relevanceScore == s) =
      (scoreResults items q loc pt tx bd).filter (fun r => r.relevanceScore == s)
    ∧ rankResults items q loc pt tx bd =
      ((sortByScoreDesc (scoreResults items q loc pt tx bd)).take 5).map
        toEnhancedItem := by
  refine ⟨?_, sortByScoreDesc_pairwise _, sortByScoreDesc_stable _ s, ?_⟩
  · unfold rankResults
    simp
  · unfold rankResults
    rw [List.map_take]

/-! ### Claim C10: the standard-tier bonus -/

theorem tierScore_eq (link : String) :
    tierScore link =
      (if premiumNames.any (fun s => jsIncludes link s) then 20
       else if standardSites.any (fun s => jsIncludes link s) then 15
       else if otherSites.any (fun s => jsIncludes link s) then 5
       else 0) := by
  unfold tierScore
  cases premiumNames.any (fun s => jsIncludes link s) <;>
    cases standardSites.any (fun s => jsIncludes link s) <;>
      cases otherSites.any (fun s => jsIncludes link s) <;> norm_num

/-- Claim C10: the standard-tier bonus of +15 is awarded exactly for
links containing `propertywala` or `indiaproperty` while containing no
premium portal name: the other four standard names also occur among the
premium names, whose +20 match is checked first and, via the
`score === 0` gate, suppresses the standard check for any such link. -/
theorem c10_standard_tier_only_two (link : String) :
    tierScore link = 15 ↔
      ((∀ s ∈ premiumNames, jsIncludes link s = false)
        ∧ (jsIncludes link "propertywala" = true ∨
           jsIncludes link "indiaproperty" = true)) := by
  have hnames : premiumNames =
      ["99acres", "magicbricks", "housing", "nobroker", "commonfloor",
       "squareyards", "makaan", "proptiger"] := by decide
  rw [tierScore_eq]
  cases hp : premiumNames.any (fun s => jsIncludes link s) with
  | true =>
    simp only [if_true]
    constructor
    · intro h; omega
    · rintro ⟨hall, _⟩
      rcases List.any_eq_true.mp hp with ⟨nm, hmem, hincl⟩
      rw [hall nm hmem] at hincl
      exact absurd hincl (by simp)
  | false =>
    have hall : ∀ s ∈ premiumNames, jsIncludes link s = false := by
      intro nm hmem
      cases hi : jsIncludes link nm with
      | false => rfl
      | true =>
        exfalso
        have ha : premiumNames.any (fun s => jsIncludes link s) = true :=
          List.any_eq_true.mpr ⟨nm, hmem, hi⟩
        rw [hp] at ha
        exact absurd ha (by simp)
    simp only [Bool.false_eq_true, if_false]
    cases hs : standardSites.any (fun s => jsIncludes link s) with
    | true =>
      simp only [if_true]
      constructor
      · intro _
        refine ⟨hall, ?_⟩
        rcases List.any_eq_true.mp hs with ⟨nm, hmem, hincl⟩
        have hcf := hall "commonfloor" (by rw [hnames]; simp)
        have hsq := hall "squareyards" (by rw [hnames]; simp)
        have hmk := hall "makaan" (by rw [hnames]; simp)
        have hpg := hall "proptiger" (by rw [hnames]; simp)
        unfold standardSites at hmem
        simp only [List.mem_cons, List.not_mem_nil, or_false] at hmem
        rcases hmem with rfl | rfl | rfl | rfl | rfl | rfl
        · rw [hcf] at hincl; exact absurd hincl (by simp)
        · rw [hsq] at hincl; exact absurd hincl (by simp)
        · rw [hmk] at hincl; exact absurd hincl (by simp)
        · rw [hpg] at hincl; exact absurd hincl (by simp)
        · exact Or.inl hincl
        · exact Or.inr hincl
      · intro _; trivial
    | false =>
      simp only [Bool.false_eq_true, if_false]
      constructor
      · intro h
        split at h <;> omega
      · rintro ⟨_, hor⟩
        exfalso
        have hmemp : ("propertywala" : String) ∈ standardSites := by
          unfold standardSites; simp
        have hmemi : ("indiaproperty" : String) ∈ standardSites := by
          unfold standardSites; simp
        rcases hor with hincl | hincl
        · have ha : standardSites.any (fun s => jsIncludes link s) = true :=
            List.any_eq_true.mpr ⟨_, hmemp, hincl⟩
          rw [hs] at ha
          exact absurd ha (by simp)
        · have ha : standardSites.any (fun s => jsIncludes link s) = true :=
            List.any_eq_true.mpr ⟨_, hmemi, hincl⟩
          rw [hs] at ha
          exact absurd ha (by simp)

/-! ## Replacement engine

For the regexes used in `String.prototype.replace`, the token matcher
must also report the length of the JavaScript-preferred match (leftmost
alternative, greedy quantifiers with backtracking). -/

/-- Length of the preferred match of the token list at the head of `cs`
(`none` when there is no match).  Greedy quantifiers try consuming
first and fall back, which reproduces the JavaScript backtracking
order. -/
def mAt : List RTok → List Char → Option Nat
  | [], _ => some 0
  | .eos :: ts, cs => if cs.isEmpty then mAt ts cs else none
  | .one _ :: _, [] => none
  | .one p :: ts, c :: cs => if p c then (mAt ts cs).map (· + 1) else none
  | .opt _ :: ts, [] => mAt ts []
  | .opt p :: ts, c :: cs =>
    if p c then
      match mAt ts cs with
      | some n => some (n + 1)
      | none => mAt ts (c :: cs)
    else mAt ts (c :: cs)
  | .star _ :: ts, [] => mAt ts []
  | .star p :: ts, c :: cs =>
    if p c then
      match mAt (.star p :: ts) cs with
      | some n => some (n + 1)
      | none => mAt ts (c :: cs)
    else mAt ts (c :: cs)
termination_by ts cs => (cs.length, ts.length)

/-- First alternative (in order) matching at the head. -/
def matchAtAny (alts : List (List RTok)) (cs : List Char) : Option Nat :=
  alts.findSome? fun a => mAt a cs

/-- Global replacement, JavaScript `String.prototype.replace(re, repl)`
with the `g` flag: scan left to right, replace each match and resume
after it.  (All patterns used can only match at least one character; a
zero-length report is treated as no match to keep the scan well
founded.) -/
def replaceAllWith (matchAt : List Char → Option Nat) (repl : List Char) :
    List Char → List Char
  | [] => []
  | c :: cs =>
    match matchAt (c :: cs) with
    | some (n + 1) => repl ++ replaceAllWith matchAt repl (cs.drop n)
    | _ => c :: replaceAllWith matchAt repl cs
termination_by cs => cs.length
decreasing_by
  · simp only [List.length_cons, List.length_drop]
    omega
  · simp

theorem mem_replaceAllWith {matchAt : List Char → Option Nat}
    {repl : List Char} :
    ∀ {cs : List Char} {x : Char}, x ∈ replaceAllWith matchAt repl cs →
      x ∈ repl ∨ x ∈ cs := by
  have H : ∀ (k : Nat) (cs : List Char), cs.length ≤ k → ∀ x : Char,
      x ∈ replaceAllWith matchAt repl cs → x ∈ repl ∨ x ∈ cs := by
    intro k
    induction k with
    | zero =>
      intro cs hl x hx
      match cs, hl with
      | [], _ => rw [replaceAllWith] at hx; simp at hx
    | succ k ih =>
      intro cs hl x hx
      match cs with
      | [] => rw [replaceAllWith] at hx; simp at hx
      | c :: cs' =>
        rw [replaceAllWith] at hx
        simp only [List.length_cons] at hl
        cases hm : matchAt (c :: cs') with
        | none =>
          rw [hm] at hx
          rcases List.mem_cons.mp hx with rfl | h2
          · exact Or.inr (List.mem_cons_self _ _)
          · rcases ih cs' (by omega) x h2 with h3 | h3
            · exact Or.inl h3
            · exact Or.inr (List.mem_cons_of_mem _ h3)
        | some n =>
          cases n with
          | zero =>
            rw [hm] at hx
            rcases List.mem_cons.mp hx with rfl | h2
            · exact Or.inr (List.mem_cons_self _ _)
            · rcases ih cs' (by omega) x h2 with h3 | h3
              · exact Or.inl h3
              · exact Or.inr (List.mem_cons_of_mem _ h3)
          | succ m =>
            rw [hm] at hx
            rcases List.mem_append.mp hx with h2 | h2
            · exact Or.inl h2
            · have hd : (cs'.drop m).length ≤ k :=
                le_trans (List.Sublist.length_le (List.drop_sublist m cs'))
                  (by omega)
              rcases ih _ hd x h2 with h3 | h3
              · exact Or.inl h3
              · exact Or.inr (List.mem_cons_of_mem _
                  (List.mem_of_mem_drop h3))
  intro cs x hx
  exact H cs.length cs le_rfl x hx

/-! ## Mistral service (`mistralService.js`): history mining -/

/-- Tail of a `lit1.*lit2` test: the second literal must occur, reachable
over non-line-terminator characters (the scope of `.`). -/
def reachCI (lit2 : List Char) : List Char → Bool
  | [] => false
  | c :: rest =>
    startsWithCIL lit2 (c :: rest) || (!isJsLineTerm c && reachCI lit2 rest)

/-- Test of `lit1.*lit2` at one position. -/
def litDotStarLitAt (lit1 lit2 : String) (cs : List Char) : Bool :=
  startsWithCIL lit1.data cs && reachCI lit2.data (cs.drop lit1.data.length)

/-- Test of `lit1.*lit2` anywhere in the text. -/
def litDotStarLitMatches (lit1 lit2 : String) (content : List Char) : Bool :=
  scanAny (litDotStarLitAt lit1 lit2) content

/-- The `nameQuestionPatterns` tests (all literal alternations; the
inner `(?:\x27s| is)` is distributed). -/
def nameQuestionMatches (content : String) : Bool :=
  containsAnyCIL content.data
    ["what\x27s your name", "what is your name", "may i know your name",
     "could you tell me your name", "who am i speaking with",
     "आपका नाम क्या है", "आपका नाम बताएं", "तुमचे नाव काय आहे",
     "તમારું નામ શું છે"]

/-- The `budgetQuestionPatterns` tests. -/
def budgetQuestionMatches (content : String) : Bool :=
  containsAnyCIL content.data
    ["what\x27s your budget", "what is your budget", "price range",
     "आपका बजट क्या है", "कितना खर्च कर सकते हैं", "तुमचे बजेट किती आहे",
     "તમારું બજેટ શું છે"] ||
  litDotStarLitMatches "budget" "range" content.data ||
  litDotStarLitMatches "how much" "spend" content.data

/-- The `locationQuestionPatterns` tests. -/
def locationQuestionMatches (content : String) : Bool :=
  containsAnyCIL content.data
    ["preferred location", "which area", "location preference",
     "कौन सा इलाका", "कहां पर चाहते हैं", "कोणत्या भागात",
     "ક્યાં શોધી રહ્યા છો"] ||
  litDotStarLitMatches "where" "looking" content.data

/-- The `propertyTypeQuestionPatterns` tests (the alternation of the
second pattern is distributed). -/
def propertyTypeQuestionMatches (content : String) : Bool :=
  containsAnyCIL content.data
    ["what type of property", "looking for a house", "looking for a apartment",
     "looking for a flat", "looking for a condo", "property type",
     "किस प्रकार की संपत्ति", "कौन सा प्रॉपर्टी टाइप", "कोणत्या प्रकारची मालमत्ता",
     "કયા પ્રકારની સંપત્તિ"]

/-- Class `[\w\s]` of the name captures. -/
def wordWsClass (c : Char) : Bool := isJsWordChar c || isJsWs c

/-- Class `[\d,]` of the budget captures. -/
def digitCommaClass (c : Char) : Bool := isJsDigit c || c == ','

/-- Capture pattern `<lit>(<cls>+)`, tried at one position: after the
literal, the greedy group takes the maximal class run (nothing follows,
so no backtracking); it must be non-empty. -/
def capAfterLitAt (lit : String) (cls : Char → Bool) (cs : List Char) :
    Option (List Char) :=
  if startsWithCIL lit.data cs then
    let run := (cs.drop lit.data.length).takeWhile cls
    if run.isEmpty then none else some run
  else none

/-- Backtracking over the greedy group length of `<lit1>(<cls>+)<lit2>`,
longest first. -/
def capBetweenTryLens (lit2 : String) (cs : List Char) :
    Nat → Option (List Char)
  | 0 => none
  | g + 1 =>
    if startsWithCIL lit2.data (cs.drop (g + 1)) then some (cs.take (g + 1))
    else capBetweenTryLens lit2 cs g

/-- Capture pattern `<lit1>(<cls>+)<lit2>`, tried at one position: the
greedy group backtracks from the maximal class run until `lit2` fits. -/
def capBetweenAt (lit1 : String) (cls : Char → Bool) (lit2 : String)
    (cs : List Char) : Option (List Char) :=
  if startsWithCIL lit1.data cs then
    let t := cs.drop lit1.data.length
    let m := (t.takeWhile cls).length
    if m = 0 then none else capBetweenTryLens lit2 t m
  else none

/-- Scanning helper of `/looking.*around ([\d,]+)/i`: the greedy `.*`
prefers the rightmost `around <digits>` reachable without a line
terminator. -/
def lookingAroundScan : List Char → Option (List Char) → Option (List Char)
  | [], best => best
  | c :: rest, best =>
    let best2 :=
      match capAfterLitAt "around " digitCommaClass (c :: rest) with
      | some cap => some cap
      | none => best
    if isJsLineTerm c then best2 else lookingAroundScan rest best2

/-- `/looking.*around ([\d,]+)/i`, tried at one position. -/
def lookingAroundAt (cs : List Char) : Option (List Char) :=
  if startsWithCIL ("looking").data cs then lookingAroundScan (cs.drop 7) none
  else none

/-- `/([\d,]+).*budget/i`, tried at one position: the greedy class run
is maximal (shortening it cannot help, since the dropped characters are
not line terminators and cannot start `budget`), then `budget` must be
reachable without a line terminator. -/
def digitsThenBudgetAt (cs : List Char) : Option (List Char) :=
  match cs with
  | c :: _ =>
    if digitCommaClass c then
      let run := cs.takeWhile digitCommaClass
      if reachCI ("budget").data (cs.drop run.length) then some run else none
    else none
  | [] => none

/-- The `nameResponsePatterns` capture scanners, in source order. -/
def nameResponseCaps : List (List Char → Option (List Char)) :=
  [capAfterLitAt "my name is " wordWsClass,
   capAfterLitAt "i am " wordWsClass,
   capAfterLitAt "i\x27m " wordWsClass,
   capBetweenAt "मेरा नाम " wordWsClass " है",
   capBetweenAt "माझे नाव " wordWsClass " आहे",
   capBetweenAt "મારું નામ " wordWsClass " છે"]

/-- The `budgetResponsePatterns` capture scanners, in source order. -/
def budgetResponseCaps : List (List Char → Option (List Char)) :=
  [capAfterLitAt "budget is " digitCommaClass,
   lookingAroundAt,
   digitsThenBudgetAt,
   capAfterLitAt "मेरा बजट " digitCommaClass,
   capAfterLitAt "माझे बजेट " digitCommaClass,
   capAfterLitAt "મારું બજેટ " digitCommaClass]

/-- `forEach` over capture patterns without `break`: the last matching
pattern in the list wins. -/
def lastCapture (pats : List (List Char → Option (List Char)))
    (cs : List Char) : Option (List Char) :=
  pats.foldl
    (fun acc f =>
      match scanFirst f cs with
      | some v => some v
      | none => acc)
    none

/-- The property types the user branch looks for (last hit wins). -/
def historyPropertyTypes : List String :=
  ["apartment", "house", "condo", "villa", "flat", "studio", "penthouse",
   "duplex"]

/-- Class `[a-z\s,]` (with the `i` flag) of the loose location capture. -/
def looseLocClass (c : Char) : Bool :=
  ('a' ≤ c && c ≤ 'z') || ('A' ≤ c && c ≤ 'Z') || isJsWs c || c == ','

/-- The loose location pattern
`/(?:location|area|place|interested in) ([a-z\s,]+)/i` at one position. -/
def looseLocationAt (cs : List Char) : Option (List Char) :=
  ["location", "area", "place", "interested in"].findSome? fun a =>
    capAfterLitAt (a ++ " ") looseLocClass cs

/-- The slots of `extractedInfo.providedInfo`. -/
structure ProvidedInfo where
  name : Option String := none
  budget : Option String := none
  propertyType : Option String := none
  preferredLocation : Option String := none
deriving Repr, DecidableEq

/-- The record built by `extractInfoFromHistory`. -/
structure ExtractedHistoryInfo where
  askedAboutName : Bool := false
  askedAboutBudget : Bool := false
  askedAboutLocation : Bool := false
  askedAboutPropertyType : Bool := false
  providedInfo : ProvidedInfo := {}
deriving Repr, DecidableEq

inductive ChatRole where
  | user
  | assistant
deriving Repr, DecidableEq

/-- One formatted history turn. -/
structure ChatMessage where
  role : ChatRole
  content : String
deriving Repr, DecidableEq

/-- The user branch of the history scan: name and budget captures (last
matching pattern wins), the property-type loop (last matching type
wins), and the loose location capture. -/
def historyUserStep (pi : ProvidedInfo) (content : String) : ProvidedInfo :=
  let pi1 :=
    match lastCapture nameResponseCaps content.data with
    | some v => { pi with name := some (String.mk (jsTrimL v)) }
    | none => pi
  let pi2 :=
    match lastCapture budgetResponseCaps content.data with
    | some v => { pi1 with budget := some (String.mk (jsTrimL v)) }
    | none => pi1
  let pi3 := historyPropertyTypes.foldl
    (fun acc t =>
      if jsIncludes (jsToLower content) t then { acc with propertyType := some t }
      else acc)
    pi2
  match scanFirst looseLocationAt content.data with
  | some v => { pi3 with preferredLocation := some (String.mk (jsTrimL v)) }
  | none => pi3

/-- One iteration of the `forEach` over history messages. -/
def historyStep (acc : ExtractedHistoryInfo) (msg : ChatMessage) :
    ExtractedHistoryInfo :=
  match msg.role with
  | .assistant =>
    { acc with
      askedAboutName :=
        acc.askedAboutName || nameQuestionMatches msg.content
      askedAboutBudget :=
        acc.askedAboutBudget || budgetQuestionMatches msg.content
      askedAboutLocation :=
        acc.askedAboutLocation || locationQuestionMatches msg.content
      askedAboutPropertyType :=
        acc.askedAboutPropertyType || propertyTypeQuestionMatches msg.content }
  | .user => { acc with providedInfo := historyUserStep acc.providedInfo msg.content }

/-- `extractInfoFromHistory`. -/
def extractInfoFromHistory (formattedHistory : List ChatMessage) :
    ExtractedHistoryInfo :=
  formattedHistory.foldl historyStep {}

/-! ### Claim C7: the askedAbout booleans are monotone -/

/-- Does this turn set `askedAboutName`? -/
def asksName (m : ChatMessage) : Bool :=
  match m.role with
  | .assistant => nameQuestionMatches m.content
  | .user => false

/-- Does this turn set `askedAboutBudget`? -/
def asksBudget (m : ChatMessage) : Bool :=
  match m.role with
  | .assistant => budgetQuestionMatches m.content
  | .user => false

/-- Does this turn set `askedAboutLocation`? -/
def asksLocation (m : ChatMessage) : Bool :=
  match m.role with
  | .assistant => locationQuestionMatches m.content
  | .user => false

/-- Does this turn set `askedAboutPropertyType`? -/
def asksPropertyType (m : ChatMessage) : Bool :=
  match m.role with
  | .assistant => propertyTypeQuestionMatches m.content
  | .user => false

theorem foldl_historyStep_asked :
    ∀ (l : List ChatMessage) (init : ExtractedHistoryInfo),
      (l.foldl historyStep init).askedAboutName =
        (init.askedAboutName || l.any asksName)
      ∧ (l.foldl historyStep init).askedAboutBudget =
        (init.askedAboutBudget || l.any asksBudget)
      ∧ (l.foldl historyStep init).askedAboutLocation =
        (init.askedAboutLocation || l.any asksLocation)
      ∧ (l.foldl historyStep init).askedAboutPropertyType =
        (init.askedAboutPropertyType || l.any asksPropertyType) := by
  intro l
  induction l with
  | nil => intro init; simp
  | cons m t ih =>
    intro init
    simp only [List.foldl_cons, List.any_cons]
    obtain ⟨ih1, ih2, ih3, ih4⟩ := ih (historyStep init m)
    rw [ih1, ih2, ih3, ih4]
    cases hr : m.role <;>
      simp [historyStep, hr, asksName, asksBudget, asksLocation,
        asksPropertyType, Bool.or_assoc]

/-- Claim C7: the four `askedAbout` booleans only ever transition from
false to true while scanning: extending the scanned window (any
superlist in the sublist order) can never turn a true boolean back to
false. -/
theorem c7_askedAbout_monotone (l1 l2 : List ChatMessage)
    (hsub : l1.Sublist l2) :
    ((extractInfoFromHistory l1).askedAboutName = true →
      (extractInfoFromHistory l2).askedAboutName = true)
    ∧ ((extractInfoFromHistory l1).askedAboutBudget = true →
      (extractInfoFromHistory l2).askedAboutBudget = true)
    ∧ ((extractInfoFromHistory l1).askedAboutLocation = true →
      (extractInfoFromHistory l2).askedAboutLocation = true)
    ∧ ((extractInfoFromHistory l1).askedAboutPropertyType = true →
      (extractInfoFromHistory l2).askedAboutPropertyType = true) := by
  obtain ⟨h11, h12, h13, h14⟩ := foldl_historyStep_asked l1 {}
  obtain ⟨h21, h22, h23, h24⟩ := foldl_historyStep_asked l2 {}
  unfold extractInfoFromHistory
  rw [h11, h12, h13, h14, h21, h22, h23, h24]
  simp only [Bool.false_or]
  refine ⟨?_, ?_, ?_, ?_⟩ <;>
    · intro h
      rcases List.any_eq_true.mp h with ⟨m, hm, hpm⟩
      exact List.any_eq_true.mpr ⟨m, hsub.subset hm, hpm⟩

/-- Claim C7 witness: a one-turn window that asked about the budget,
extended by one more turn. -/
theorem c7_askedAbout_monotone_witness :
    (([⟨ChatRole.assistant, "What is your budget?"⟩] : List ChatMessage)).Sublist
        [⟨ChatRole.assistant, "What is your budget?"⟩,
         ⟨ChatRole.assistant, "Hello!"⟩]
    ∧ (extractInfoFromHistory
        [⟨ChatRole.assistant, "What is your budget?"⟩]).askedAboutBudget = true
    ∧ (extractInfoFromHistory
        [⟨ChatRole.assistant, "What is your budget?"⟩,
         ⟨ChatRole.assistant, "Hello!"⟩]).askedAboutBudget = true := by
  have hsub : (([⟨ChatRole.assistant, "What is your budget?"⟩] :
      List ChatMessage)).Sublist
      [⟨ChatRole.assistant, "What is your budget?"⟩,
       ⟨ChatRole.assistant, "Hello!"⟩] :=
    List.Sublist.cons₂ _ (List.nil_sublist _)
  refine ⟨hsub, by decide, ?_⟩
  exact (c7_askedAbout_monotone _ _ hsub).2.1 (by decide)

/-! ## Mistral service: conversation-ending detection -/

/-- `String.prototype.trim`. -/
def jsTrimS (s : String) : String := String.mk (jsTrimL s.data)

/-- The short ending phrases checked for messages of at most two words. -/
def shortEndingPhrases : List String :=
  ["thanks", "thank you", "ok", "okay", "bye", "goodbye", "got it",
   "धन्यवाद", "शुक्रिया", "ठीक है", "अच्छा", "बाय",
   "धन्यवाद", "आभार", "ठीक आहे", "बरं",
   "આભાર", "ધન્યવાદ", "ઠીક છે", "સારું"]

/-- The longer ending-phrase regexes, flattened: each is a pure literal
alternation tested with `i`, so matching any regex is containment of any
alternative. -/
def endingPhraseAlternatives : List String :=
  ["thank you", "thanks", "thank u",
   "goodbye", "bye", "see you", "farewell",
   "that\x27s all", "that is all", "no more", "finished",
   "no more questions",
   "got it", "understood", "i understand",
   "ok", "okay", "fine", "great",
   "that\x27s helpful", "that helps", "clear now",
   "appreciate", "appreciate it", "appreciate your",
   "धन्यवाद", "शुक्रिया", "थैंक्स", "आभार",
   "अलविदा", "बाय", "गुड बाय", "फिर मिलेंगे",
   "बस इतना ही", "यही सब है", "हो गया",
   "कोई और सवाल नहीं", "और कुछ नहीं",
   "समझ गया", "ठीक है", "समझ में आया",
   "ओके", "अच्छा", "ठीक", "बहुत अच्छा",
   "मदद मिली", "स्पष्ट है", "समझ में आ गया",
   "धन्यवाद", "आभार", "थँक्यू",
   "निरोप", "बाय", "पुन्हा भेटू",
   "बस एवढेच", "इतकेच", "झाले",
   "आणखी प्रश्न नाहीत",
   "समजले", "बरोबर", "ठीक आहे",
   "ओके", "छान", "बरं",
   "मदत झाली", "स्पष्ट आहे",
   "આભાર", "ધન્યવાદ", "થેંક્યુ",
   "આવજો", "બાય", "ફરી મળીશું",
   "બસ આટલું જ", "પૂરું થયું",
   "વધુ પ્રશ્નો નથી",
   "સમજાયું", "બરાબર", "ઠીક છે",
   "ઓકે", "સારું", "ઠીક",
   "મદદ મળી", "સ્પષ્ટ છે",
   "ধন্যবাদ", "আপনাকে ধন্যবাদ",
   "বিদায়", "ফিরে দেখা হবে",
   "এটাই সব", "শেষ",
   "আর কোন প্রশ্ন নেই",
   "বুঝেছি", "ঠিক আছে",
   "ওকে", "ভালো",
   "সাহায্য পেয়েছি", "পরিষ্কার"]

/-- `isConversationEnding`: short messages are checked against the short
phrases; otherwise any ending-phrase match, or a short message without a
question mark, signals an ending. -/
def isConversationEnding (message : String) : Bool :=
  let normalized := jsToLower (jsTrimS message)
  let shortHit :=
    if (jsSplitWs normalized).length ≤ 2 then
      shortEndingPhrases.any fun p => normalized == p || jsIncludes normalized p
    else false
  if shortHit then true
  else
    let isEnding :=
      endingPhraseAlternatives.any fun p => containsCIL normalized.data p.data
    let isShortNonQuestion :=
      decide (normalized.length < 15) && !(jsIncludes normalized "?")
    isEnding || isShortNonQuestion

/-! ## Mistral service: response cleaning (`appendSearchResults`) -/

/-- Character class `[^.!?]` of the trailing-question pattern. -/
def qTailClassC (c : Char) : Bool := !(c == '.' || c == '!' || c == '?')

/-- Split at the first `?`. -/
def splitAtQ : List Char → Option (List Char × List Char)
  | [] => none
  | c :: t =>
    if c == '?' then some ([], t)
    else (splitAtQ t).map fun p => (c :: p.1, p.2)

theorem splitAtQ_snd_lt :
    ∀ {cs a b}, splitAtQ cs = some (a, b) → b.length < cs.length := by
  intro cs
  induction cs with
  | nil =>
    intro a b h
    rw [show splitAtQ ([] : List Char) = none from rfl] at h
    exact Option.noConfusion h
  | cons c t ih =>
    intro a b h
    rw [splitAtQ] at h
    split at h
    · cases h
      simp
    · cases hs : splitAtQ t with
      | none => rw [hs] at h; exact Option.noConfusion h
      | some p =>
        rw [hs] at h
        injection h with h3
        injection h3 with h4 h5
        have hlt := ih (a := p.1) (b := p.2) (by rw [hs])
        subst h5
        simp only [List.length_cons]
        omega

/-- After the first `?` of the trailing-question pattern
`\s*([^.!?]\s*\?\s*)+$`: the rest is trailing whitespace, or further
iterations, each a `?`-free segment of form `\s*[^.!?]\s*` (non-empty,
at most one non-whitespace character, no `.`/`!`) ending in `?`. -/
def qAfterFirst (r : List Char) : Bool :=
  if r.all isJsWs then true
  else
    match h : splitAtQ r with
    | some (seg, rest) =>
      !seg.isEmpty && decide ((seg.filter fun c => !isJsWs c).length ≤ 1) &&
        seg.all qTailClassC && qAfterFirst rest
    | none => false
termination_by r.length
decreasing_by exact splitAtQ_snd_lt h

/-- Does `([^.!?]\s*\?\s*)+$` match the whole text?  The first block is a
class character followed by whitespace, then `?`, then iterations as in
`qAfterFirst`. -/
def blocksFull (cs : List Char) : Bool :=
  match splitAtQ cs with
  | none => false
  | some (s0, rest) =>
    !s0.isEmpty && (s0.drop 1).all isJsWs && s0.all qTailClassC &&
      qAfterFirst rest

/-- Does `\s*([^.!?]\s*\?\s*)+$` match the suffix beginning here? -/
def posMatchQ : List Char → Bool
  | [] => false
  | c :: t => blocksFull (c :: t) || (isJsWs c && posMatchQ t)

/-- The first cleaning step,
`replace(/\s*([^.!?]\s*\?\s*)+$/, '.')` (non-global): the leftmost
position whose whole suffix matches is replaced by a dot. -/
def replaceTrailingQs : List Char → List Char
  | [] => []
  | c :: t => if posMatchQ (c :: t) then ['.'] else c :: replaceTrailingQs t

/-- Character class `[^\n.]` of the list-question pattern. -/
def nlDotClass (c : Char) : Bool := !(c == '\n' || c == '.')

/-- Greedy group of `([^\n.]+\?)`: the largest index `p ≥ 1` carrying a
`?` inside the maximal class run (a `?` is itself a class character). -/
def lastQIdxGo : Nat → Option Nat → List Char → Option Nat
  | _, best, [] => best
  | i, best, c :: t =>
    if nlDotClass c then
      lastQIdxGo (i + 1) (if c == '?' && decide (1 ≤ i) then some i else best) t
    else best

def lastQIdx (cs : List Char) : Option Nat := lastQIdxGo 0 none cs

/-- Backtracking over the greedy `\s*` before the group of the
list-question pattern, longest first; returns the consumed length from
the start of the whitespace. -/
def step2TryWs (cs : List Char) : Nat → Option Nat
  | 0 =>
    match lastQIdx cs with
    | some p => some (p + 1 + ((cs.drop (p + 1)).takeWhile isJsWs).length)
    | none => none
  | n + 1 =>
    match lastQIdx (cs.drop (n + 1)) with
    | some p =>
      some (n + 1 + p + 1 + ((cs.drop (n + 1 + p + 1)).takeWhile isJsWs).length)
    | none => step2TryWs cs n

/-- The second cleaning step's pattern
`/([0-9]\.|•|\*|-)\s*([^\n.]+\?)\s*/g` at one position (match length). -/
def step2MatchAt (cs : List Char) : Option Nat :=
  match cs with
  | a :: b :: rest =>
    if isJsDigit a && b == '.' then
      (step2TryWs rest ((rest.takeWhile isJsWs).length)).map (· + 2)
    else step2SingleLead (a :: b :: rest)
  | _ => step2SingleLead cs
where
  step2SingleLead : List Char → Option Nat
  | c :: rest =>
    if c == '•' || c == '*' || c == '-' then
      (step2TryWs rest ((rest.takeWhile isJsWs).length)).map (· + 1)
    else none
  | [] => none

/-- The third cleaning step's pattern `/\s+([A-Z][^.!?]+\?)\s+/g` at one
position (match length): greedy whitespace, one ASCII capital, a maximal
`[^.!?]` run (shortening it cannot reach the mandatory `?`), the `?`,
then trailing whitespace (at least one). -/
def step3MatchAt (cs : List Char) : Option Nat :=
  let n := (cs.takeWhile isJsWs).length
  if n = 0 then none
  else
    match cs.drop n with
    | c :: rest =>
      if 'A' ≤ c && c ≤ 'Z' then
        let run := rest.takeWhile qTailClassC
        if run.isEmpty then none
        else
          match rest.drop run.length with
          | '?' :: r2 =>
            let m := (r2.takeWhile isJsWs).length
            if m = 0 then none else some (n + 1 + run.length + 1 + m)
          | _ => none
      else none
    | [] => none

/-- `.` in a JavaScript regex: any non-line-terminator. -/
def dotT : RTok := RTok.one fun c => !isJsLineTerm c

/-- `.+` as tokens (greedy). -/
def dotPlusToks : List RTok := [dotT, RTok.star fun c => !isJsLineTerm c]

/-- `\??` as a token. -/
def optQT : RTok := RTok.opt fun c => c == '?'

/-- Character class `[^.?!]` of the English follow-up patterns. -/
def engQClass (c : Char) : Bool := !(c == '.' || c == '?' || c == '!')

/-- `[^.?!]+\??`, the common tail of the English follow-up patterns. -/
def engTailToks : List RTok := [RTok.one engQClass, RTok.star engQClass, optQT]

/-- `<pre>.+<post>\??`, the common shape of the Indic follow-up
patterns. -/
def indicQToks (pre post : String) : List RTok :=
  litEx pre ++ dotPlusToks ++ litEx post ++ [optQT]

/-- The `questionPatterns` of `appendSearchResults`, in source order,
each as a list of token-list alternatives (inner alternations are
distributed in JavaScript priority order). -/
def questionPatternList : List (List (List RTok)) :=
  [ [litCI "would you like to " ++ engTailToks,
     litCI "would you like me to " ++ engTailToks],
    [litCI "do you want to " ++ engTailToks,
     litCI "do you want me to " ++ engTailToks],
    [litCI "can i help you " ++ engTailToks],
    [litCI "are you interested in " ++ engTailToks],
    [litCI "shall we " ++ engTailToks],
    [litCI "how about " ++ engTailToks],
    [litCI "what else " ++ engTailToks, litCI "what other " ++ engTailToks,
     litCI "what more " ++ engTailToks],
    [litCI "is there anything else " ++ engTailToks],
    [indicQToks "क्या आप " " बताना चाहेंगे"],
    [indicQToks "आप " " के बारे में क्या सोचते हैं"],
    [indicQToks "क्या आपको " " चाहिए"],
    [litEx "क्या मैं आपकी और सहायता कर सकता हूँ" ++ [optQT]],
    [indicQToks "क्या आप " " जानना चाहते हैं"],
    [indicQToks "क्या आपके पास " " है"],
    [litEx "मैं आपकी कैसे सहायता कर सकता हूँ" ++ [optQT]],
    [litEx "आपको और क्या जानकारी चाहिए" ++ [optQT]],
    [indicQToks "क्या आप " " खोज रहे हैं"],
    [indicQToks "क्या आप " " पसंद करेंगे"],
    [indicQToks "तुम्हाला " " आवडेल का"],
    [indicQToks "मी तुम्हाला " " मदत करू शकतो का"],
    [indicQToks "तुम्हाला " " हवे आहे का"],
    [indicQToks "શું તમે " " કરવા માંગો છો"],
    [indicQToks "હું તમને " " મદદ કરી શકું"],
    [indicQToks "તમને " " જોઈએ છે"] ]

/-- The `forEach` applying every question-pattern removal in order
(replacement is the empty string). -/
def applyQuestionPatterns (cs : List Char) : List Char :=
  questionPatternList.foldl
    (fun acc pat => replaceAllWith (matchAtAny pat) [] acc) cs

/-- Step 5, `replace(/\?/g, '.')`: every question mark becomes a dot. -/
def replaceQMarks (cs : List Char) : List Char :=
  cs.map fun c => if c == '?' then '.' else c

/-- The closing courtesy line appended on conversation endings. -/
def closingLine : String :=
  "\n\nI am pleased to assist you. If you have any other questions in the future, please feel free to ask."

/-- The `/thank you|thanks|pleasure|happy to help|see you/i` check. -/
def thanksClosingCheck (cs : List Char) : Bool :=
  containsAnyCIL cs ["thank you", "thanks", "pleasure", "happy to help", "see you"]

/-- `\n{3,}` as tokens. -/
def nl3Toks : List RTok :=
  [RTok.one (fun c => c == '\n'), RTok.one (fun c => c == '\n'),
   RTok.one (fun c => c == '\n'), RTok.star (fun c => c == '\n')]

/-- `\s{2,}` as tokens. -/
def ws2Toks : List RTok := [RTok.one isJsWs, RTok.one isJsWs, RTok.star isJsWs]

/-- `/\s*\.[^.]{1,20}\./g` as tokens (the bounded quantifier expanded to
one mandatory and nineteen optional class characters, greedy). -/
def step8Toks : List RTok :=
  [RTok.star isJsWs, RTok.one (fun c => c == '.'),
   RTok.one (fun c => !(c == '.'))] ++
  List.replicate 19 (RTok.opt fun c => !(c == '.')) ++
  [RTok.one fun c => c == '.']

/-- The response-cleaning pipeline of `appendSearchResults`
(lines 556-635), applied when search results are present. -/
def cleanResponse (aiResponse userMessage : String) : String :=
  let isEnding := isConversationEnding userMessage
  let r1 := replaceTrailingQs aiResponse.data
  let r2 := replaceAllWith step2MatchAt [] r1
  let r3 := replaceAllWith step3MatchAt (". ").data r2
  let r4 := applyQuestionPatterns r3
  let r5 := replaceQMarks r4
  let r6 :=
    if isEnding then
      let ra := applyQuestionPatterns r5
      if thanksClosingCheck ra then ra else ra ++ closingLine.data
    else r5
  let r7 := replaceAllWith (matchAtAny [nl3Toks]) ("\n\n").data r6
  let r8 := replaceAllWith (matchAtAny [ws2Toks]) (" ").data r7
  let r9 := jsTrimL r8
  String.mk (replaceAllWith (matchAtAny [step8Toks]) (".").data r9)

/-- `replace(/\s+/g, ' ').trim()`, applied to result titles/snippets. -/
def cleanField (s : String) : String :=
  String.mk
    (jsTrimL (replaceAllWith (matchAtAny [[RTok.one isJsWs, RTok.star isJsWs]])
      (" ").data s.data))

/-- One numbered entry of the appended digest. -/
def summaryEntry (label : String) (i : Nat) (r : EnhancedItem) : String :=
  "\n**" ++ toString (i + 1) ++ ". " ++ cleanField r.title ++ "**\n" ++
    cleanField r.snippet ++ "\n[" ++ label ++ "](" ++ r.link ++ ")\n"

/-- The appended search-results digest: header, then the top three
entries (label `View Source`) when at least three results exist, else
all entries (label `स्रोत देखें`). -/
def summaryFor (searchResults : List EnhancedItem) : String :=
  let base := "\n\n### 📊 Latest Real Estate Information ###\n"
  if 3 ≤ searchResults.length then
    base ++ String.join
      ((searchResults.take 3).enum.map fun p => summaryEntry "View Source" p.1 p.2)
  else
    base ++ String.join
      (searchResults.enum.map fun p => summaryEntry "स्रोत देखें" p.1 p.2)

/-- `appendSearchResults`: with no results (a missing list is normalised
to an empty one by the guard), the AI response is returned unchanged;
otherwise the cleaned response plus the digest. -/
def appendSearchResults (aiResponse : String) (searchResults : List EnhancedItem)
    (userMessage : String) : String :=
  if searchResults.isEmpty then aiResponse
  else cleanResponse aiResponse userMessage ++ summaryFor searchResults

/-! ## Language service: result formatting -/

/-- The fixed per-language no-results messages, with the English
fallback for unknown codes. -/
def noResultsMessageFor (langCode : String) : String :=
  if langCode = "en" then "I couldn\x27t find any relevant real estate information for your query."
  else if langCode = "hi" then "मुझे आपके प्रश्न के लिए कोई प्रासंगिक रियल एस्टेट जानकारी नहीं मिली।"
  else if langCode = "mr" then "मला तुमच्या प्रश्नासाठी कोणतीही संबंधित रिअल इस्टेट माहिती सापडली नाही."
  else if langCode = "gu" then "મને તમારી ક્વેરી માટે કોઈ સંબંધિત રીયલ એસ્ટેટ માહિતી મળી નથી."
  else if langCode = "bn" then "আমি আপনার প্রশ্নের জন্য কোনও প্রাসঙ্গিক রিয়েল এস্টেট তথ্য খুঁজে পাইনি।"
  else if langCode = "ta" then "உங்கள் கேள்விக்கு தொடர்புடைய ரியல் எஸ்டேட் தகவல்களை என்னால் கண்டுபிடிக்க முடியவில்லை."
  else if langCode = "te" then "మీ ప్రశ్నకు సంబంధించిన రియల్ ఎస్టేట్ సమాచారాన్ని నేను కనుగొనలేకపోయాను."
  else if langCode = "kn" then "ನಿಮ್ಮ ಪ್ರಶ್ನೆಗೆ ಸಂಬಂಧಿಸಿದ ಯಾವುದೇ ರಿಯಲ್ ಎಸ್ಟೇಟ್ ಮಾಹಿತಿಯನ್ನು ನಾನು ಕಂಡುಕೊಳ್ಳಲು ಸಾಧ್ಯವಾಗಲಿಲ್ಲ."
  else if langCode = "ml" then "നിങ്ങളുടെ ചോദ്യത്തിന് പ്രസക്തമായ റിയൽ എസ്റ്റേറ്റ് വിവരങ്ങളൊന്നും എനിക്ക് കണ്ടെത്താൻ കഴിഞ്ഞില്ല."
  else if langCode = "pa" then "ਮੈਨੂੰ ਤੁਹਾਡੇ ਸਵਾਲ ਲਈ ਕੋਈ ਢੁਕਵੀਂ ਰੀਅਲ ਅਸਟੇਟ ਜਾਣਕਾਰੀ ਨਹੀਂ ਮਿਲੀ।"
  else if langCode = "ur" then "مجھے آپ کے سوال کے لیے کوئی متعلقہ ریل اسٹیٹ معلومات نہیں مل سکیں۔"
  else "I couldn\x27t find any relevant real estate information for your query."

/-- The fixed per-language introduction lines. -/
def introMessageFor (langCode : String) : String :=
  if langCode = "en" then "Here\x27s what I found online about your real estate query:"
  else if langCode = "hi" then "आपके रियल एस्टेट प्रश्न के बारे में मुझे ऑनलाइन यह जानकारी मिली:"
  else if langCode = "mr" then "तुमच्या रिअल इस्टेट प्रश्नाबद्दल मला ऑनलाईन हे सापडले:"
  else if langCode = "gu" then "તમારી રીયલ એસ્ટેટ ક્વેરી વિશે મને ઓનલાઇન આ માહિતી મળી:"
  else if langCode = "bn" then "আপনার রিয়েল এস্টেট প্রশ্ন সম্পর্কে আমি অনলাইনে যা খুঁজে পেয়েছি:"
  else if langCode = "ta" then "உங்கள் ரியல் எஸ்டேட் கேள்வி பற்றி நான் ஆன்லைனில் கண்டுபிடித்தது இதோ:"
  else if langCode = "te" then "మీ రియల్ ఎస్టేట్ ప్రశ్న గురించి నేను ఆన్‌లైన్‌లో కనుగొన్నది ఇదే:"
  else if langCode = "kn" then "ನಿಮ್ಮ ರಿಯಲ್ ಎಸ್ಟೇಟ್ ಪ್ರಶ್ನೆಯ ಬಗ್ಗೆ ನಾನು ಆನ್‌ಲೈನ್‌ನಲ್ಲಿ ಕಂಡುಕೊಂಡದ್ದು ಇಲ್ಲಿದೆ:"
  else if langCode = "ml" then "നിങ്ങളുടെ റിയൽ എസ്റ്റേറ്റ് ചോദ്യത്തെക്കുറിച്ച് ഞാൻ ഓൺലൈനിൽ കണ്ടെത്തിയത് ഇതാണ്:"
  else if langCode = "pa" then "ਤੁਹਾਡੇ ਰੀਅਲ ਅਸਟੇਟ ਸਵਾਲ ਬਾਰੇ ਮੈਨੂੰ ਔਨਲਾਈਨ ਜੋ ਮਿਲਿਆ:"
  else if langCode = "ur" then "آپ کے ریل اسٹیٹ سوال کے بارے میں مجھے آن لائن یہ معلومات ملیں:"
  else "Here\x27s what I found online about your real estate query:"

/-- The fixed per-language follow-up lines. -/
def moreInfoMessageFor (langCode : String) : String :=
  if langCode = "en" then "\nIs there anything specific from these results you\x27d like to know more about?"
  else if langCode = "hi" then "\nक्या इन परिणामों से आप किसी विशेष जानकारी के बारे में और अधिक जानना चाहते हैं?"
  else if langCode = "mr" then "\nया निकालांमधून तुम्हाला काही विशिष्ट माहिती अधिक जाणून घ्यायची आहे का?"
  else if langCode = "gu" then "\nશું આ પરિણામોમાંથી કોઈ ચોક્કસ માહિતી વિશે તમે વધુ જાણવા માંગો છો?"
  else if langCode = "bn" then "\nএই ফলাফলগুলি থেকে আপনি কি কোনও নির্দিষ্ট বিষয় সম্পর্কে আরও জানতে চান?"
  else if langCode = "ta" then "\nஇந்த முடிவுகளிலிருந்து குறிப்பிட்ட ஏதாவது பற்றி மேலும் அறிய விரும்புகிறீர்களா?"
  else if langCode = "te" then "\nఈ ఫలితాల నుండి మీరు ఏదైనా నిర్దిష్ట విషయం గురించి మరింత తెలుసుకోవాలనుకుంటున్నారా?"
  else if langCode = "kn" then "\nಈ ಫಲಿತಾಂಶಗಳಿಂದ ನೀವು ಯಾವುದಾದರೂ ನಿರ್ದಿಷ್ಟ ವಿಷಯದ ಬಗ್ಗೆ ಹೆಚ್ಚು ತಿಳಿಯಲು ಬಯಸುತ್ತೀರಾ?"
  else if langCode = "ml" then "\nഈ ഫലങ്ങളിൽ നിന്ന് എന്തെങ്കിലും പ്രത്യേകമായി കൂടുതൽ അറിയാൻ നിങ്ങൾ ആഗ്രഹിക്കുന്നുണ്ടോ?"
  else if langCode = "pa" then "\nਕੀ ਇਹਨਾਂ ਨਤੀਜਿਆਂ ਵਿੱਚੋਂ ਕੋਈ ਖਾਸ ਜਾਣਕਾਰੀ ਹੈ ਜਿਸ ਬਾਰੇ ਤੁਸੀਂ ਹੋਰ ਜਾਣਨਾ ਚਾਹੋਗੇ?"
  else if langCode = "ur" then "\nکیا ان نتائج میں سے کوئی خاص چیز ہے جس کے بارے میں آپ مزید جاننا چاہیں گے؟"
  else "\nIs there anything specific from these results you\x27d like to know more about?"

/-- `formatSearchResultsInLanguage`: a missing or empty result list
yields the fixed per-language no-results message (a `null` list hits the
same `!searchResults ||` guard as an empty one); otherwise the
introduction, numbered entries and follow-up line. -/
def formatSearchResultsInLanguage (searchResults : List EnhancedItem)
    (langCode : String) : String :=
  if searchResults.isEmpty then noResultsMessageFor langCode
  else
    introMessageFor langCode ++ "\n\n" ++
      String.join (searchResults.enum.map fun p =>
        toString (p.1 + 1) ++ ". **" ++ p.2.title ++ "**\n" ++ p.2.snippet ++
          "\n[Learn more](" ++ p.2.link ++ ")\n\n") ++
      moreInfoMessageFor langCode

/-! ### Claim C8: empty hit lists degrade gracefully -/

/-- Claim C8: an empty (or missing) search-hit list raises no error:
result formatting returns the fixed per-language no-results message, and
response post-processing returns the AI text unchanged with no digest
appended. -/
theorem c8_empty_results_graceful (langCode aiResponse userMessage : String) :
    formatSearchResultsInLanguage [] langCode = noResultsMessageFor langCode
    ∧ appendSearchResults aiResponse [] userMessage = aiResponse :=
  ⟨rfl, rfl⟩

/-! ### Claim C4: question marks in the cleaned response -/

theorem noQM_replaceAllWith {matchAt : List Char → Option Nat}
    {repl cs : List Char} (hr : '?' ∉ repl) (hc : '?' ∉ cs) :
    '?' ∉ replaceAllWith matchAt repl cs := by
  intro h
  rcases mem_replaceAllWith h with h2 | h2
  · exact hr h2
  · exact hc h2

theorem noQM_replaceQMarks (cs : List Char) : '?' ∉ replaceQMarks cs := by
  intro h
  rcases List.mem_map.mp h with ⟨c, _, hc⟩
  by_cases h2 : c == '?'
  · rw [if_pos h2] at hc
    exact absurd hc (by decide)
  · rw [if_neg h2] at hc
    rw [hc] at h2
    exact h2 (by decide)

theorem noQM_append {a b : List Char} (ha : '?' ∉ a) (hb : '?' ∉ b) :
    '?' ∉ a ++ b := by
  intro h
  rcases List.mem_append.mp h with h2 | h2
  · exact ha h2
  · exact hb h2

theorem mem_jsTrimL {x : Char} {cs : List Char} (h : x ∈ jsTrimL cs) :
    x ∈ cs := by
  unfold jsTrimL at h
  have h1 := List.mem_reverse.mp h
  have h2 := (List.dropWhile_sublist _).subset h1
  have h3 := List.mem_reverse.mp h2
  exact (List.dropWhile_sublist _).subset h3

theorem noQM_applyQuestionPatterns {cs : List Char} (hc : '?' ∉ cs) :
    '?' ∉ applyQuestionPatterns cs := by
  unfold applyQuestionPatterns
  generalize questionPatternList = pats
  induction pats generalizing cs with
  | nil => exact hc
  | cons p t ih =>
    simp only [List.foldl_cons]
    exact ih (noQM_replaceAllWith (by simp) hc)

theorem noQM_cleanResponse (aiResponse userMessage : String) :
    '?' ∉ (cleanResponse aiResponse userMessage).data := by
  unfold cleanResponse
  simp only
  apply noQM_replaceAllWith (by decide)
  intro hmem
  have hmem2 := mem_jsTrimL hmem
  revert hmem2
  apply noQM_replaceAllWith (by decide)
  apply noQM_replaceAllWith (by decide)
  split
  · split
    · exact noQM_applyQuestionPatterns (noQM_replaceQMarks _)
    · exact noQM_append (noQM_applyQuestionPatterns (noQM_replaceQMarks _))
        (by decide)
  · exact noQM_replaceQMarks _

/-- Claim C4 counterexample: with an empty search-result list the AI
text is returned unchanged, question marks included, refuting the claim
as universally stated. -/
theorem c4_counterexample :
    appendSearchResults "Is this ok?" [] "hello" = "Is this ok?"
    ∧ '?' ∈ ("Is this ok?").data :=
  ⟨rfl, by decide⟩

/-- Claim C4 (amended): when the search-result list is non-empty, the
output is the cleaned response followed by the digest, and the cleaned
response contains no question mark (step 5 converts every `?` to `.`,
and every later step only inserts `?`-free material); question marks may
survive in the appended digest (titles/snippets) and in the untouched
text returned for an empty result list. -/
theorem c4_cleaned_has_no_question_marks (aiResponse : String)
    (searchResults : List EnhancedItem) (userMessage : String)
    (h : searchResults ≠ []) :
    appendSearchResults aiResponse searchResults userMessage =
      cleanResponse aiResponse userMessage ++ summaryFor searchResults
    ∧ '?' ∉ (cleanResponse aiResponse userMessage).data := by
  constructor
  · cases searchResults with
    | nil => exact absurd rfl h
    | cons a t => rfl
  · exact noQM_cleanResponse _ _

/-- A sample hit for the C4 witness. -/
def sampleHit : EnhancedItem :=
  { title := "3 BHK Flat in Pune", link := "https://www.99acres.com/x",
    snippet := "Price ₹75 lakh" }

theorem c4_cleaned_has_no_question_marks_witness :
    appendSearchResults "Hello? Sure." [sampleHit] "hi" =
      cleanResponse "Hello? Sure." "hi" ++ summaryFor [sampleHit]
    ∧ '?' ∉ (cleanResponse "Hello? Sure." "hi").data :=
  c4_cleaned_has_no_question_marks "Hello? Sure." [sampleHit] "hi" (by decide)
